import Mathlib

/-!
# CentOS network manager of the BOSH agent

A shallow embedding of `go_agent/src/bosh/platform/net/centos_net_manager.go`.

* Go strings are `String`; the standard-library helpers the file calls
  (`strings.Trim`, `filepath.Join`, `filepath.Base`, `text/template`) are
  written out as functions on characters.
* The collaborators of the manager (file system, command runner, subnet
  calculation) are the fields of `Sys`, over an arbitrary state type: every
  theorem that quantifies over `Sys` holds for every behaviour of them.
* Every method returns the value it returns in Go, the state it leaves and the
  list of calls it made to its collaborators, in order (`Out`).
-/

namespace Bosh

/-! ## Go values -/

/-- Go `error` values that are not nil: a message, possibly wrapping a cause.
A nil error is `none` of `Option GoError`. -/
inductive GoError where
  | mk (msg : String)
  | wrapped (msg : String) (cause : GoError)
  deriving DecidableEq, Repr

/-- Modelled from the spec: `bosherr.WrapError` is not among the sources; an
error is propagated with context describing the attempted operation, wrapped at
each layer it crosses. The result is never nil. -/
def WrapError (err : GoError) (msg : String) : GoError :=
  GoError.wrapped msg err

/-- A Go `map[string]string`. -/
abbrev GoMap := String → Option String

/-- The literal `map[string]string{}`. -/
def GoMap.empty : GoMap := fun _ => none

/-- The assignment `m[k] = v`. -/
def GoMap.set (m : GoMap) (k v : String) : GoMap :=
  fun k' => if k' = k then some v else m k'

/-- The expression `m[k]`: the zero value (the empty string) for a missing key. -/
def GoMap.index (m : GoMap) (k : String) : String :=
  (m k).getD ""

/-! ## Standard library: strings and paths -/

/-- Go `strings.Trim(s, cutset)`: all leading and trailing characters that
occur in `cutset` removed. -/
def stringsTrim (s cutset : String) : String :=
  ⟨((s.data.dropWhile (fun c => cutset.data.contains c)).reverse.dropWhile
      (fun c => cutset.data.contains c)).reverse⟩

/-- Go `strings.Join(elems, sep)`. -/
def stringsJoin (elems : List String) (sep : String) : String :=
  sep.intercalate elems

/-- The segments of a text between the occurrences of `sep` (never an empty
list). -/
def splitChar (sep : Char) : List Char → List (List Char)
  | [] => [[]]
  | c :: cs =>
    if c = sep then [] :: splitChar sep cs
    else
      match splitChar sep cs with
      | [] => [[c]]
      | seg :: segs => (c :: seg) :: segs

/-- The characters of `segs` joined with `sep`. -/
def joinChar (sep : Char) : List (List Char) → List Char
  | [] => []
  | [seg] => seg
  | seg :: segs => seg ++ sep :: joinChar sep segs

/-- The lines of a text: its segments between newlines, without the empty
segment after a final newline. -/
def linesOf (text : String) : List String :=
  let segs := splitChar '\n' text.data
  (if segs.getLast? = some [] then segs.dropLast else segs).map String.mk

/-- The concatenation of strings, in order. -/
def concatStrings : List String → String
  | [] => ""
  | x :: xs => x ++ concatStrings xs

/-- One step of `filepath.Clean` over the segments of a path; `stack` holds the
segments kept so far, the last one first. Empty segments and `.` are dropped,
`..` removes the segment before it, is dropped at the root and is kept at the
start of a relative path. -/
def cleanStep (rooted : Bool) (stack : List (List Char)) (seg : List Char) :
    List (List Char) :=
  if seg = [] ∨ seg = ['.'] then stack
  else if seg = ['.', '.'] then
    match stack with
    | top :: below => if top = ['.', '.'] then seg :: stack else below
    | [] => if rooted then [] else [seg]
  else seg :: stack

/-- Go `filepath.Clean` (Unix): the shortest path equivalent to `path` by
purely lexical processing. -/
def filepathClean (path : String) : String :=
  let rooted := path.data.head? = some '/'
  let kept := ((splitChar '/' path.data).foldl (cleanStep rooted) []).reverse
  let out := (if rooted then ['/'] else []) ++ joinChar '/' kept
  if out = [] then "." else ⟨out⟩

/-- Go `filepath.Join`: the elements from the first non-empty one on, joined
with `/` and cleaned; the empty string when all are empty. -/
def filepathJoin : List String → String
  | [] => ""
  | e :: es => if e ≠ "" then filepathClean (stringsJoin (e :: es) "/") else filepathJoin es

/-- The characters after the last `/` of a path. -/
def lastSegment (cs : List Char) : List Char :=
  (cs.reverse.takeWhile (fun c => c ≠ '/')).reverse

/-- Go `filepath.Base` (Unix): the last element of `path`, trailing slashes
removed first; `.` for the empty path and `/` for a path of slashes only. -/
def filepathBase (path : String) : String :=
  if path = "" then "."
  else
    let stripped := (path.data.reverse.dropWhile (fun c => c = '/')).reverse
    let last := lastSegment stripped
    if last = [] then "/" else ⟨last⟩

/-! ## Standard library: `text/template`, for the actions the file uses -/

/-- The values of the fields a template reads. -/
inductive Value where
  | str (s : String)
  | bool (b : Bool)
  | strs (l : List String)
  deriving DecidableEq, Repr

/-- The value of the cursor `.`: the struct passed to `Execute`, or the current
element inside a `range` over strings. -/
inductive Dot where
  | struct (fields : List (String × Value))
  | elem (s : String)
  deriving DecidableEq, Repr

/-- The pieces of a template that contain no block. -/
inductive Leaf where
  | text (t : String)
  | dot
  | field (name : String)
  deriving DecidableEq, Repr

/-- The pieces of a template: a leaf, `if .Name`-`end` or `range .Name`-`end`
around leaves. -/
inductive Node where
  | leaf (l : Leaf)
  | ifField (name : String) (body : List Leaf)
  | rangeField (name : String) (body : List Leaf)
  deriving DecidableEq, Repr

/-- A parsed template. -/
abbrev Template := List Node

/-- The tokens of a template text. -/
inductive Tok where
  | text (t : List Char)
  | action (a : List Char)
  deriving DecidableEq, Repr

/-- A text token for the characters collected in reverse, none when empty. -/
def textTok (acc : List Char) : List Tok :=
  if acc = [] then [] else [Tok.text acc.reverse]

/-- Where the lexer stands: in text, in text after one opening brace, in an
action, in an action after one closing brace. -/
inductive LexMode where
  | text
  | open1
  | action
  | close1
  deriving DecidableEq, Repr

/-- Cuts a template text at its action delimiters (two opening braces, two
closing braces); none when an action is left open. `acc` holds the characters
since the last delimiter, in reverse. -/
def lexTemplate : List Char → LexMode → List Char → Option (List Tok)
  | [], LexMode.text, acc => some (textTok acc)
  | [], LexMode.open1, acc => some (textTok ('{' :: acc))
  | [], LexMode.action, _ => none
  | [], LexMode.close1, _ => none
  | c :: cs, LexMode.text, acc =>
    if c = '{' then lexTemplate cs LexMode.open1 acc
    else lexTemplate cs LexMode.text (c :: acc)
  | c :: cs, LexMode.open1, acc =>
    if c = '{' then (lexTemplate cs LexMode.action []).map (fun toks => textTok acc ++ toks)
    else lexTemplate cs LexMode.text (c :: '{' :: acc)
  | c :: cs, LexMode.action, acc =>
    if c = '}' then lexTemplate cs LexMode.close1 acc
    else lexTemplate cs LexMode.action (c :: acc)
  | c :: cs, LexMode.close1, acc =>
    if c = '}' then (lexTemplate cs LexMode.text []).map (fun toks => Tok.action acc.reverse :: toks)
    else lexTemplate cs LexMode.action (c :: '}' :: acc)

/-- The actions the file uses. -/
inductive Action where
  | dot
  | field (name : String)
  | ifField (name : String)
  | rangeField (name : String)
  | end_
  | unsupported
  deriving DecidableEq, Repr

/-- Reads the inside of an action, blanks around it dropped. -/
def classify (a : List Char) : Action :=
  match ((a.dropWhile (fun c => c = ' ')).reverse.dropWhile (fun c => c = ' ')).reverse with
  | ['.'] => Action.dot
  | '.' :: name => Action.field ⟨name⟩
  | 'i' :: 'f' :: ' ' :: '.' :: name => Action.ifField ⟨name⟩
  | 'r' :: 'a' :: 'n' :: 'g' :: 'e' :: ' ' :: '.' :: name => Action.rangeField ⟨name⟩
  | ['e', 'n', 'd'] => Action.end_
  | _ => Action.unsupported

/-- Builds the block that `end` closes. -/
def closeBlock (isRange : Bool) (name : String) (body : List Leaf) : Node :=
  if isRange then Node.rangeField name body else Node.ifField name body

/-- Assembles tokens into nodes. `blk` is the block that is open, with the
leaves read into it so far; a block inside a block is not supported. -/
def parseToks : List Tok → Option (Bool × String × List Leaf) → Option Template
  | [], none => some []
  | [], some _ => none
  | Tok.text t :: toks, none =>
    (parseToks toks none).map (fun ns => Node.leaf (Leaf.text ⟨t⟩) :: ns)
  | Tok.text t :: toks, some (r, n, body) =>
    parseToks toks (some (r, n, body ++ [Leaf.text ⟨t⟩]))
  | Tok.action a :: toks, none =>
    match classify a with
    | Action.dot => (parseToks toks none).map (fun ns => Node.leaf Leaf.dot :: ns)
    | Action.field f => (parseToks toks none).map (fun ns => Node.leaf (Leaf.field f) :: ns)
    | Action.ifField f => parseToks toks (some (false, f, []))
    | Action.rangeField f => parseToks toks (some (true, f, []))
    | Action.end_ => none
    | Action.unsupported => none
  | Tok.action a :: toks, some (r, n, body) =>
    match classify a with
    | Action.dot => parseToks toks (some (r, n, body ++ [Leaf.dot]))
    | Action.field f => parseToks toks (some (r, n, body ++ [Leaf.field f]))
    | Action.end_ => (parseToks toks none).map (fun ns => closeBlock r n body :: ns)
    | Action.ifField _ => none
    | Action.rangeField _ => none
    | Action.unsupported => none

/-- Go `template.New(name).Parse(text)`, none for a parse error. -/
def templateParse (text : String) : Option Template :=
  match lexTemplate text.data LexMode.text [] with
  | none => none
  | some toks => parseToks toks none

/-- Go `template.Must`: the parsed template. It panics on a parse error, which
the constant templates of the file do not have (`parse_centos*` below), so the
empty template stands for a case that does not occur. -/
def templateMust (t : Option Template) : Template :=
  t.getD []

/-- How `text/template` prints a value. -/
def printValue : Value → String
  | Value.str s => s
  | Value.bool b => if b then "true" else "false"
  | Value.strs l => "[" ++ stringsJoin l " " ++ "]"

/-- The truth of a value in `if`: false for false, the empty string and the
empty slice. -/
def truthy : Value → Bool
  | Value.str s => s ≠ ""
  | Value.bool b => b
  | Value.strs l => l ≠ []

/-- Evaluates `.Name` at the cursor. -/
def evalField (dot : Dot) (name : String) : Except GoError Value :=
  match dot with
  | Dot.struct fields =>
    match fields.lookup name with
    | some v => Except.ok v
    | none => Except.error (GoError.mk ("can't evaluate field " ++ name))
  | Dot.elem _ => Except.error (GoError.mk ("can't evaluate field " ++ name ++ " in type string"))

/-- Executes one leaf. -/
def execLeaf (dot : Dot) : Leaf → Except GoError String
  | Leaf.text t => Except.ok t
  | Leaf.dot =>
    match dot with
    | Dot.elem s => Except.ok s
    | Dot.struct _ => Except.error (GoError.mk "printing a struct is not supported")
  | Leaf.field name =>
    match evalField dot name with
    | Except.ok v => Except.ok (printValue v)
    | Except.error e => Except.error e

/-- Executes leaves in order and concatenates their output. -/
def execLeaves (dot : Dot) : List Leaf → Except GoError String
  | [] => Except.ok ""
  | l :: ls =>
    match execLeaf dot l with
    | Except.error e => Except.error e
    | Except.ok a =>
      match execLeaves dot ls with
      | Except.error e => Except.error e
      | Except.ok b => Except.ok (a ++ b)

/-- Executes the body of a `range` once for each element, the cursor set to
the element. -/
def execRange (body : List Leaf) : List String → Except GoError String
  | [] => Except.ok ""
  | x :: xs =>
    match execLeaves (Dot.elem x) body with
    | Except.error e => Except.error e
    | Except.ok a =>
      match execRange body xs with
      | Except.error e => Except.error e
      | Except.ok b => Except.ok (a ++ b)

/-- Executes one node. -/
def execNode (dot : Dot) : Node → Except GoError String
  | Node.leaf l => execLeaf dot l
  | Node.ifField name body =>
    match evalField dot name with
    | Except.error e => Except.error e
    | Except.ok v => if truthy v then execLeaves dot body else Except.ok ""
  | Node.rangeField name body =>
    match evalField dot name with
    | Except.error e => Except.error e
    | Except.ok (Value.strs l) => execRange body l
    | Except.ok _ => Except.error (GoError.mk ("range can't iterate over " ++ name))

/-- Go `t.Execute(buffer, data)`: the bytes written to the buffer, or the
error. -/
def templateExecute (t : Template) (data : List (String × Value)) : Except GoError String :=
  match t with
  | [] => Except.ok ""
  | n :: ns =>
    match execNode (Dot.struct data) n with
    | Except.error e => Except.error e
    | Except.ok a =>
      match templateExecute ns data with
      | Except.error e => Except.error e
      | Except.ok b => Except.ok (a ++ b)

/-! ## Templates of the file -/

/-- The constant `centosDHCPConfigTemplate`. -/
def centosDHCPConfigTemplate : String :=
  "# Generated by bosh-agent\n\noption rfc3442-classless-static-routes code 121 = array of unsigned integer 8;\n\nsend host-name \"<hostname>\";\n\nrequest subnet-mask, broadcast-address, time-offset, routers,\n\tdomain-name, domain-name-servers, domain-search, host-name,\n\tnetbios-name-servers, netbios-scope, interface-mtu,\n\trfc3442-classless-static-routes, ntp-servers;\n\n\x7b\x7b range .DNSServers \x7d\x7dprepend domain-name-servers \x7b\x7b . \x7d\x7d;\n\x7b\x7b end \x7d\x7d"

/-- The constant `centosIfcgfTemplate`. -/
def centosIfcgfTemplate : String :=
  "DEVICE=\x7b\x7b .Interface \x7d\x7d\nBOOTPROTO=static\nIPADDR=\x7b\x7b .IP \x7d\x7d\nNETMASK=\x7b\x7b .Netmask \x7d\x7d\nBROADCAST=\x7b\x7b .Broadcast \x7d\x7d\n\x7b\x7b if .HasDefaultGateway \x7d\x7dGATEWAY=\x7b\x7b .Gateway \x7d\x7d\x7b\x7b end \x7d\x7d\nONBOOT=yes"

/-- The constant `centosResolvConfTemplate`. -/
def centosResolvConfTemplate : String :=
  "# Generated by bosh-agent\n\x7b\x7b range .DNSServers \x7d\x7dnameserver \x7b\x7b . \x7d\x7d\n\x7b\x7b end \x7d\x7d"

/-- The text of `centosDHCPConfigTemplate` before its `range` action. -/
def dhcpHeader : String :=
  "# Generated by bosh-agent\n\noption rfc3442-classless-static-routes code 121 = array of unsigned integer 8;\n\nsend host-name \"<hostname>\";\n\nrequest subnet-mask, broadcast-address, time-offset, routers,\n\tdomain-name, domain-name-servers, domain-search, host-name,\n\tnetbios-name-servers, netbios-scope, interface-mtu,\n\trfc3442-classless-static-routes, ntp-servers;\n\n"

/-! ## Data model -/

/-- Modelled from the spec: `boshsettings.Network` is not among the sources.
One network descriptor: IP address, netmask, optional gateway (empty when
absent), hardware address, ordered list of DNS servers, and the boolean tags
marking it as the DNS source and as the default-route source. -/
structure Network where
  IP : String
  Netmask : String
  Gateway : String
  Mac : String
  DNS : List String
  DnsSource : Bool
  DefaultRouteSource : Bool
  deriving DecidableEq, Repr

/-- Modelled from the spec: `boshsettings.Networks` is not among the sources.
An ordered collection of network descriptors; `for _, aNet := range networks`
visits them in the order of the list. -/
abbrev Networks := List Network

/-- The zero value of `Network`. -/
def Network.zero : Network :=
  { IP := "", Netmask := "", Gateway := "", Mac := "", DNS := [],
    DnsSource := false, DefaultRouteSource := false }

/-- Whether a network carries the tag of a role, `dns` or `gateway`. -/
def Network.IsDefaultFor (n : Network) (category : String) : Bool :=
  if category = "dns" then n.DnsSource
  else if category = "gateway" then n.DefaultRouteSource
  else false

/-- Modelled from the spec: `Networks.DefaultNetworkFor` is not among the
sources. The lookup of the network designated to supply a role returns the
first tagged match and whether there is one; with none tagged the network is
the zero value, whose DNS list is empty. -/
def DefaultNetworkFor (networks : Networks) (category : String) : Network × Bool :=
  match networks.find? (fun n => n.IsDefaultFor category) with
  | some n => (n, true)
  | none => (Network.zero, false)

/-- Modelled from the spec: the type `customNetwork` is declared outside the
sources. A network descriptor with its resolved device name, computed network
address, computed broadcast address and a has-default-gateway flag, in the
order of the positional literal in `writeIfcfgs`. -/
structure customNetwork where
  Network : Network
  Interface : String
  NetworkIP : String
  Broadcast : String
  HasDefaultGateway : Bool
  deriving DecidableEq, Repr

/-- The fields of a `customNetwork` as a template sees them, those of the
embedded `Network` promoted. -/
def customNetwork.fields (n : customNetwork) : List (String × Value) :=
  [("Interface", Value.str n.Interface),
   ("NetworkIP", Value.str n.NetworkIP),
   ("Broadcast", Value.str n.Broadcast),
   ("HasDefaultGateway", Value.bool n.HasDefaultGateway),
   ("IP", Value.str n.Network.IP),
   ("Netmask", Value.str n.Network.Netmask),
   ("Gateway", Value.str n.Network.Gateway),
   ("Mac", Value.str n.Network.Mac),
   ("DNS", Value.strs n.Network.DNS),
   ("DnsSource", Value.bool n.Network.DnsSource),
   ("DefaultRouteSource", Value.bool n.Network.DefaultRouteSource)]

/-- The fields of `dhcpConfigArg` and of `dnsConfigArg`: both hold the one
field `DNSServers`. -/
def dnsServersArg (dnsServers : List String) : List (String × Value) :=
  [("DNSServers", Value.strs dnsServers)]

/-! ## Collaborators and traces -/

/-- A call of the manager to one of its collaborators. -/
inductive Call where
  | Glob (pattern : String)
  | ReadFileString (path : String)
  | WriteFile (path content : String)
  | ConvergeFileContents (path content : String)
  | RunCommand (cmd : String) (args : List String)
  | CalculateNetworkAndBroadcast (ip netmask : String)
  | LogInfo (tag format : String) (err : GoError)
  | ErrChSend
  deriving DecidableEq, Repr

/-- A call together with the error it returned, none for nil. -/
structure Event where
  call : Call
  err : Option GoError
  deriving DecidableEq, Repr

/-- The collaborators of the manager over a state `σ` of the machine:
`boshsys.FileSystem`, `boshsys.CmdRunner`, `time.Sleep`,
`boshsys.CalculateNetworkAndBroadcast` and the field `arpWaitInterval`.
Reads observe the state; writes, commands and the passing of time change it.
Durations are in nanoseconds. -/
structure Sys (σ : Type) where
  Glob : σ → String → Except GoError (List String)
  ReadFileString : σ → String → Except GoError String
  FileExists : σ → String → Bool
  WriteFile : σ → String → String → Option GoError × σ
  ConvergeFileContents : σ → String → String → (Bool × Option GoError) × σ
  RunCommand : σ → String → List String → Option GoError × σ
  Sleep : σ → Nat → σ
  CalculateNetworkAndBroadcast : String → String → Except GoError (String × String)
  arpWaitInterval : Nat

/-- What a method leaves behind: the value it returns, the state of the
machine, and the calls it made, in order. -/
structure Out (σ : Type) (α : Type) where
  val : α
  st : σ
  evs : List Event

/-- The constant `centosNetManagerLogTag`. -/
def centosNetManagerLogTag : String := "centosNetManager"

/-! ## The manager -/

/-- The method `getDNSServers`. -/
def getDNSServers (networks : Networks) : List String :=
  (DefaultNetworkFor networks "dns").1.DNS

/-- The method `restartNetwork`: runs `service network restart`; a failure is
logged and ignored. -/
def restartNetwork {σ : Type} (sys : Sys σ) (s : σ) : Out σ Unit :=
  match sys.RunCommand s "service" ["network", "restart"] with
  | (some err, s1) =>
    ⟨(), s1, [⟨Call.RunCommand "service" ["network", "restart"], some err⟩,
      ⟨Call.LogInfo centosNetManagerLogTag "Ignoring network restart failure: %#v" err, none⟩]⟩
  | (none, s1) => ⟨(), s1, [⟨Call.RunCommand "service" ["network", "restart"], none⟩]⟩

/-- The method `SetupDhcp`. -/
def SetupDhcp {σ : Type} (sys : Sys σ) (s : σ) (networks : Networks) : Out σ (Option GoError) :=
  let dnsNetwork := (DefaultNetworkFor networks "dns").1
  let t := templateMust (templateParse centosDHCPConfigTemplate)
  match templateExecute t (dnsServersArg dnsNetwork.DNS) with
  | Except.error err => ⟨some (WrapError err "Generating config from template"), s, []⟩
  | Except.ok buffer =>
    match sys.ConvergeFileContents s "/etc/dhcp/dhclient.conf" buffer with
    | ((_, some err), s1) =>
      ⟨some (WrapError err "Writing to /etc/dhcp/dhclient.conf"), s1,
        [⟨Call.ConvergeFileContents "/etc/dhcp/dhclient.conf" buffer, some err⟩]⟩
    | ((written, none), s1) =>
      if written then
        let r := restartNetwork sys s1
        ⟨none, r.st, ⟨Call.ConvergeFileContents "/etc/dhcp/dhclient.conf" buffer, none⟩ :: r.evs⟩
      else
        ⟨none, s1, [⟨Call.ConvergeFileContents "/etc/dhcp/dhclient.conf" buffer, none⟩]⟩

/-- The loop of `detectMacAddresses` over the enumerated paths, `addresses`
being the map filled so far. -/
def detectMacAddressesLoop {σ : Type} (sys : Sys σ) (s : σ) :
    List String → GoMap → (GoMap × Option GoError) × List Event
  | [], addresses => ((addresses, none), [])
  | filePath :: rest, addresses =>
    match sys.ReadFileString s (filepathJoin [filePath, "address"]) with
    | Except.error err =>
      ((addresses, some (WrapError err "Reading mac address from file")),
        [⟨Call.ReadFileString (filepathJoin [filePath, "address"]), some err⟩])
    | Except.ok macAddress =>
      let macAddress := stringsTrim macAddress "\n"
      let interfaceName := filepathBase filePath
      let r := detectMacAddressesLoop sys s rest (addresses.set macAddress interfaceName)
      (r.1, ⟨Call.ReadFileString (filepathJoin [filePath, "address"]), none⟩ :: r.2)

/-- The method `detectMacAddresses`: the map from hardware address to device
name, the error, and the calls made. -/
def detectMacAddresses {σ : Type} (sys : Sys σ) (s : σ) : (GoMap × Option GoError) × List Event :=
  match sys.Glob s "/sys/class/net/*" with
  | Except.error err =>
    ((GoMap.empty, some (WrapError err "Getting file list from /sys/class/net")),
      [⟨Call.Glob "/sys/class/net/*", some err⟩])
  | Except.ok filePaths =>
    let r := detectMacAddressesLoop sys s filePaths GoMap.empty
    (r.1, ⟨Call.Glob "/sys/class/net/*", none⟩ :: r.2)

/-- The loop of `writeIfcfgs` over the networks, `modifiedNetworks` being the
slice built so far. -/
def writeIfcfgsLoop {σ : Type} (sys : Sys σ) (macAddresses : GoMap) :
    Networks → List customNetwork → σ → Out σ (List customNetwork × Option GoError)
  | [], modifiedNetworks, s => ⟨(modifiedNetworks, none), s, []⟩
  | aNet :: rest, modifiedNetworks, s =>
    match sys.CalculateNetworkAndBroadcast aNet.IP aNet.Netmask with
    | Except.error err =>
      ⟨(modifiedNetworks, some (WrapError err "Calculating network and broadcast")), s,
        [⟨Call.CalculateNetworkAndBroadcast aNet.IP aNet.Netmask, some err⟩]⟩
    | Except.ok (network, broadcast) =>
      let newNet : customNetwork := ⟨aNet, macAddresses.index aNet.Mac, network, broadcast, true⟩
      let modifiedNetworks := modifiedNetworks ++ [newNet]
      let t := templateMust (templateParse centosIfcgfTemplate)
      match templateExecute t newNet.fields with
      | Except.error err =>
        ⟨(modifiedNetworks, some (WrapError err "Generating config from template")), s,
          [⟨Call.CalculateNetworkAndBroadcast aNet.IP aNet.Netmask, none⟩]⟩
      | Except.ok buffer =>
        let path := filepathJoin ["/etc/sysconfig/network-scripts", "ifcfg-" ++ newNet.Interface]
        match sys.WriteFile s path buffer with
        | (some err, s1) =>
          ⟨(modifiedNetworks, some (WrapError err "Writing to /etc/sysconfig/network-scripts")), s1,
            [⟨Call.CalculateNetworkAndBroadcast aNet.IP aNet.Netmask, none⟩,
             ⟨Call.WriteFile path buffer, some err⟩]⟩
        | (none, s1) =>
          let r := writeIfcfgsLoop sys macAddresses rest modifiedNetworks s1
          ⟨r.val, r.st,
            ⟨Call.CalculateNetworkAndBroadcast aNet.IP aNet.Netmask, none⟩ ::
              ⟨Call.WriteFile path buffer, none⟩ :: r.evs⟩

/-- The method `writeIfcfgs`. -/
def writeIfcfgs {σ : Type} (sys : Sys σ) (s : σ) (networks : Networks) :
    Out σ (List customNetwork × Option GoError) :=
  match detectMacAddresses sys s with
  | ((_, some err), evs) => ⟨([], some (WrapError err "Detecting mac addresses")), s, evs⟩
  | ((macAddresses, none), evs) =>
    let r := writeIfcfgsLoop sys macAddresses networks [] s
    ⟨r.val, r.st, evs ++ r.evs⟩

/-- The method `writeResolvConf`. -/
def writeResolvConf {σ : Type} (sys : Sys σ) (s : σ) (networks : Networks) : Out σ (Option GoError) :=
  let t := templateMust (templateParse centosResolvConfTemplate)
  let dnsServers := getDNSServers networks
  match templateExecute t (dnsServersArg dnsServers) with
  | Except.error err => ⟨some (WrapError err "Generating config from template"), s, []⟩
  | Except.ok buffer =>
    match sys.WriteFile s "/etc/resolv.conf" buffer with
    | (some err, s1) =>
      ⟨some (WrapError err "Writing to /etc/resolv.conf"), s1,
        [⟨Call.WriteFile "/etc/resolv.conf" buffer, some err⟩]⟩
    | (none, s1) => ⟨none, s1, [⟨Call.WriteFile "/etc/resolv.conf" buffer, none⟩]⟩

/-- What `SetupManualNetworking` returns and whether it started the goroutine
`gratuitiousArp`, with the networks and channel it passed to it. -/
structure ManualResult where
  err : Option GoError
  launched : Option (List customNetwork × Bool)
  deriving DecidableEq, Repr

/-- The method `SetupManualNetworking`; `errCh` tells whether the channel
passed is not nil. The goroutine is started, not run: its calls are those of
`gratuitiousArp`. -/
def SetupManualNetworking {σ : Type} (sys : Sys σ) (s : σ) (networks : Networks) (errCh : Bool) :
    Out σ ManualResult :=
  let w := writeIfcfgs sys s networks
  match w.val.2 with
  | some err => ⟨⟨some (WrapError err "Writing network interfaces"), none⟩, w.st, w.evs⟩
  | none =>
    let r := restartNetwork sys w.st
    let c := writeResolvConf sys r.st networks
    match c.val with
    | some err =>
      ⟨⟨some (WrapError err "Writing resolv.conf"), none⟩, c.st, w.evs ++ r.evs ++ c.evs⟩
    | none => ⟨⟨none, some (w.val.1, errCh)⟩, c.st, w.evs ++ r.evs ++ c.evs⟩

/-- The inner wait of `gratuitiousArp`: sleeps 100 ms at a time until the path
exists. The Go loop has no bound; `fuel` bounds the number of sleeps, and the
result is none when the path has not appeared by then. -/
def waitForDevice {σ : Type} (sys : Sys σ) (path : String) : Nat → σ → Option σ
  | 0, s => if sys.FileExists s path then some s else none
  | fuel + 1, s =>
    if sys.FileExists s path then some s
    else waitForDevice sys path fuel (sys.Sleep s 100000000)

/-- The calls of one announcement: the command, and the log entry when it
failed. -/
def arpingEvents (network : customNetwork) (err : Option GoError) : List Event :=
  match err with
  | some e =>
    [⟨Call.RunCommand "arping" ["-c", "1", "-U", "-I", network.Interface, network.Network.IP], some e⟩,
     ⟨Call.LogInfo centosNetManagerLogTag "Ignoring arping failure: %#v" e, none⟩]
  | none =>
    [⟨Call.RunCommand "arping" ["-c", "1", "-U", "-I", network.Interface, network.Network.IP], none⟩]

/-- The loop of `gratuitiousArp` over the networks, within one round. -/
def arpNetworks {σ : Type} (sys : Sys σ) (fuel : Nat) : List customNetwork → σ → Option (Out σ Unit)
  | [], s => some ⟨(), s, []⟩
  | network :: rest, s =>
    match waitForDevice sys (filepathJoin ["/sys/class/net", network.Interface]) fuel s with
    | none => none
    | some s1 =>
      match sys.RunCommand s1 "arping" ["-c", "1", "-U", "-I", network.Interface, network.Network.IP] with
      | (err, s2) =>
        match arpNetworks sys fuel rest (sys.Sleep s2 sys.arpWaitInterval) with
        | none => none
        | some r => some ⟨(), r.st, arpingEvents network err ++ r.evs⟩

/-- The loop of `gratuitiousArp` over the rounds, `rounds` of them left. -/
def arpRounds {σ : Type} (sys : Sys σ) (fuel : Nat) (networks : List customNetwork) :
    Nat → σ → Option (Out σ Unit)
  | 0, s => some ⟨(), s, []⟩
  | rounds + 1, s =>
    match arpNetworks sys fuel networks s with
    | none => none
    | some r1 =>
      match arpRounds sys fuel networks rounds r1.st with
      | none => none
      | some r2 => some ⟨(), r2.st, r1.evs ++ r2.evs⟩

/-- The method `gratuitiousArp`: six rounds over the networks, then nil sent on
the channel when there is one. None when a device wait ran out of fuel. -/
def gratuitiousArp {σ : Type} (sys : Sys σ) (fuel : Nat) (networks : List customNetwork)
    (errCh : Bool) (s : σ) : Option (Out σ Unit) :=
  match arpRounds sys fuel networks 6 s with
  | none => none
  | some r => some ⟨(), r.st, if errCh then r.evs ++ [⟨Call.ErrChSend, none⟩] else r.evs⟩

/-! ## Reading traces -/

/-- The commands run, in order, as the command name followed by its arguments. -/
def commandsOf : List Event → List (List String)
  | [] => []
  | ⟨Call.RunCommand cmd args, _⟩ :: evs => (cmd :: args) :: commandsOf evs
  | _ :: evs => commandsOf evs

/-- The files written with `WriteFile`, in order, as path and content, the
failed attempts included. -/
def writesOf : List Event → List (String × String)
  | [] => []
  | ⟨Call.WriteFile path content, _⟩ :: evs => (path, content) :: writesOf evs
  | _ :: evs => writesOf evs

/-- The files passed to `ConvergeFileContents`, in order, as path and content. -/
def convergedOf : List Event → List (String × String)
  | [] => []
  | ⟨Call.ConvergeFileContents path content, _⟩ :: evs => (path, content) :: convergedOf evs
  | _ :: evs => convergedOf evs

/-- Whether a call returned an error that aborts the pass: any error but that
of a command, which is logged and ignored. -/
def Event.fatal (e : Event) : Bool :=
  match e.call with
  | Call.RunCommand _ _ => false
  | _ => e.err.isSome

/-- The command of `restartNetwork`. -/
def restartCommand : List String := ["service", "network", "restart"]

/-- The announcement command for a network. -/
def arpingCommand (network : customNetwork) : List String :=
  ["arping", "-c", "1", "-U", "-I", network.Interface, network.Network.IP]

/-! ## What the templates render -/

/-- The directive line of the DHCP artifact for a DNS server. -/
def dhcpDirective (server : String) : String :=
  "prepend domain-name-servers " ++ server ++ ";\n"

/-- The line of the resolver artifact for a DNS server. -/
def nameserverLine (server : String) : String :=
  "nameserver " ++ server ++ "\n"

/-- The static interface artifact of a network. -/
def ifcfgText (n : customNetwork) : String :=
  "DEVICE=" ++ n.Interface ++ "\nBOOTPROTO=static\nIPADDR=" ++ n.Network.IP ++ "\nNETMASK=" ++
    n.Network.Netmask ++ "\nBROADCAST=" ++ n.Broadcast ++ "\n" ++
    (if n.HasDefaultGateway then "GATEWAY=" ++ n.Network.Gateway else "") ++ "\nONBOOT=yes"

/-- The DHCP artifact that `SetupDhcp` renders for the networks. -/
def dhcpText (networks : Networks) : String :=
  dhcpHeader ++ concatStrings ((DefaultNetworkFor networks "dns").1.DNS.map dhcpDirective)

/-- Whether `pat` occurs in `text`. -/
def containsText (text pat : String) : Bool :=
  text.data.tails.any (fun t => pat.data.isPrefixOf t)

/-! ## What a pass does, for stating the theorems -/

/-- The `customNetwork` that the loop of `writeIfcfgs` builds for a network
whose subnet calculation succeeded (the addresses are empty otherwise, a case
in which the loop builds none). -/
def newNetFor {σ : Type} (sys : Sys σ) (macAddresses : GoMap) (aNet : Network) : customNetwork :=
  match sys.CalculateNetworkAndBroadcast aNet.IP aNet.Netmask with
  | Except.ok (network, broadcast) => ⟨aNet, macAddresses.index aNet.Mac, network, broadcast, true⟩
  | Except.error _ => ⟨aNet, macAddresses.index aNet.Mac, "", "", true⟩

/-- The path `writeIfcfgs` writes the interface file of a network to. -/
def ifcfgPath (n : customNetwork) : String :=
  filepathJoin ["/etc/sysconfig/network-scripts", "ifcfg-" ++ n.Interface]

/-- The interface file of a network: path and content. -/
def ifcfgFile (n : customNetwork) : String × String :=
  (ifcfgPath n, ifcfgText n)

/-- The hardware address `detectMacAddresses` reads for an enumerated path:
the content of its file `address` with the newlines around it trimmed (the
empty string when the read fails, in which case the method reads no further). -/
def macAddressOf {σ : Type} (sys : Sys σ) (s : σ) (filePath : String) : String :=
  match sys.ReadFileString s (filepathJoin [filePath, "address"]) with
  | Except.ok macAddress => stringsTrim macAddress "\n"
  | Except.error _ => ""

/-- No call of the trace returned a fatal error. -/
def NoFatal (evs : List Event) : Prop :=
  ∀ e ∈ evs, e.fatal = false

/-- The last call of the trace returned a fatal error and no call before it
did. -/
def FatalLast (evs : List Event) : Prop :=
  ∃ pre e, evs = pre ++ [e] ∧ NoFatal pre ∧ e.fatal = true

/-- How the error returned and the trace go together: nil and no fatal call,
or an error and a trace that ends at its only fatal call. -/
def Outcome (err : Option GoError) (evs : List Event) : Prop :=
  (err = none ∧ NoFatal evs) ∨ (err ≠ none ∧ FatalLast evs)

/-! ## An in-memory machine, for concrete runs -/

/-- The state of the in-memory machine: the files by path, the paths that
enumeration returns, and the commands run so far. -/
structure MemState where
  files : List (String × String)
  globPaths : List String
  commands : List (List String)
  deriving DecidableEq, Repr

/-- Replaces or adds the content of a path. -/
def MemState.put (s : MemState) (path content : String) : MemState :=
  { s with files := (path, content) :: s.files.filter (fun f => f.1 ≠ path) }

/-- Modelled from the spec: the implementation of `ConvergeFileContents` is not
among the sources. The convergence write reads the existing content at the
path (an absent path counts as different), writes the content only if it
differs, and returns whether a write occurred. -/
def memConverge (s : MemState) (path content : String) : (Bool × Option GoError) × MemState :=
  if s.files.lookup path = some content then ((false, none), s)
  else ((true, none), s.put path content)

/-- A subnet calculation for concrete runs. It handles dotted quads under the
netmask 255.255.255.0 only, as in the example of the spec: IP 10.0.0.5 gives
network 10.0.0.0 and broadcast 10.0.0.255; anything else is an error. -/
def memCalculate (ip netmask : String) : Except GoError (String × String) :=
  match splitChar '.' ip.data with
  | [a, b, c, _] =>
    if netmask = "255.255.255.0" then
      Except.ok (⟨joinChar '.' [a, b, c, ['0']]⟩, ⟨joinChar '.' [a, b, c, ['2', '5', '5']]⟩)
    else Except.error (GoError.mk "netmask not handled")
  | _ => Except.error (GoError.mk "invalid IP address")

/-- The in-memory machine: files are an association list, no file operation
fails, a command fails when `cmdFails` says so and leaves the files alone. -/
def memSys (cmdFails : List String → Bool) : Sys MemState where
  Glob := fun s _ => Except.ok s.globPaths
  ReadFileString := fun s path =>
    match s.files.lookup path with
    | some content => Except.ok content
    | none => Except.error (GoError.mk ("open " ++ path ++ ": no such file or directory"))
  FileExists := fun s path => (s.files.lookup path).isSome
  WriteFile := fun s path content => (none, s.put path content)
  ConvergeFileContents := memConverge
  RunCommand := fun s cmd args =>
    (if cmdFails (cmd :: args) then some (GoError.mk "exit status 1") else none,
      { s with commands := s.commands ++ [cmd :: args] })
  Sleep := fun s _ => s
  CalculateNetworkAndBroadcast := memCalculate
  arpWaitInterval := 0

/-- A command runner that never fails. -/
def noFailure : List String → Bool := fun _ => false

/-- A command runner that always fails. -/
def allFail : List String → Bool := fun _ => true

/-- A start state of the in-memory machine: two devices, `eth0` with hardware
address `aa:aa` and `eth1` with `bb:bb`, and no configuration file yet. -/
def memStart : MemState :=
  { files := [("/sys/class/net/eth0/address", "aa:aa\n"), ("/sys/class/net/eth1/address", "bb:bb\n"),
              ("/sys/class/net/eth0", ""), ("/sys/class/net/eth1", "")],
    globPaths := ["/sys/class/net/eth0", "/sys/class/net/eth1"],
    commands := [] }

/-- The state `memStart` with its devices enumerated in the other order. -/
def memStartReversed : MemState :=
  { memStart with globPaths := ["/sys/class/net/eth1", "/sys/class/net/eth0"] }

/-! ## Example networks -/

/-- An example network on `eth0`, tagged for neither role. -/
def netA : Network :=
  { IP := "10.0.0.5", Netmask := "255.255.255.0", Gateway := "10.0.0.1", Mac := "aa:aa",
    DNS := ["8.8.8.8", "8.8.4.4"], DnsSource := false, DefaultRouteSource := false }

/-- An example network on `eth1`, tagged for both roles. -/
def netB : Network :=
  { IP := "10.0.1.5", Netmask := "255.255.255.0", Gateway := "10.0.1.1", Mac := "bb:bb",
    DNS := ["1.1.1.1"], DnsSource := true, DefaultRouteSource := true }

/-- An example network whose hardware address no device of `memStart` has. -/
def netC : Network :=
  { IP := "10.0.2.5", Netmask := "255.255.255.0", Gateway := "10.0.2.1", Mac := "cc:cc",
    DNS := [], DnsSource := false, DefaultRouteSource := false }

/-- A second example network with the hardware address of `eth0`. -/
def netA2 : Network :=
  { IP := "10.0.3.5", Netmask := "255.255.255.0", Gateway := "10.0.3.1", Mac := "aa:aa",
    DNS := [], DnsSource := false, DefaultRouteSource := false }

/-- An example network whose subnet calculation fails on the in-memory
machine. -/
def netBad : Network :=
  { IP := "bad", Netmask := "255.255.255.0", Gateway := "", Mac := "bb:bb",
    DNS := [], DnsSource := false, DefaultRouteSource := false }

/-- The `customNetwork` of `netA` on `eth0`. -/
def customA : customNetwork := ⟨netA, "eth0", "10.0.0.0", "10.0.0.255", true⟩

/-- The `customNetwork` of `netB` on `eth1`. -/
def customB : customNetwork := ⟨netB, "eth1", "10.0.1.0", "10.0.1.255", true⟩

/-! ## Theorems -/

/-! ### The constant templates parse -/

set_option maxRecDepth 100000 in
theorem parse_centosDHCPConfigTemplate :
    templateParse centosDHCPConfigTemplate =
      some [Node.leaf (Leaf.text dhcpHeader),
        Node.rangeField "DNSServers"
          [Leaf.text "prepend domain-name-servers ", Leaf.dot, Leaf.text ";\n"]] := by
  decide

set_option maxRecDepth 100000 in
theorem parse_centosIfcgfTemplate :
    templateParse centosIfcgfTemplate =
      some [Node.leaf (Leaf.text "DEVICE="), Node.leaf (Leaf.field "Interface"),
        Node.leaf (Leaf.text "\nBOOTPROTO=static\nIPADDR="), Node.leaf (Leaf.field "IP"),
        Node.leaf (Leaf.text "\nNETMASK="), Node.leaf (Leaf.field "Netmask"),
        Node.leaf (Leaf.text "\nBROADCAST="), Node.leaf (Leaf.field "Broadcast"),
        Node.leaf (Leaf.text "\n"),
        Node.ifField "HasDefaultGateway" [Leaf.text "GATEWAY=", Leaf.field "Gateway"],
        Node.leaf (Leaf.text "\nONBOOT=yes")] := by
  decide

set_option maxRecDepth 100000 in
theorem parse_centosResolvConfTemplate :
    templateParse centosResolvConfTemplate =
      some [Node.leaf (Leaf.text "# Generated by bosh-agent\n"),
        Node.rangeField "DNSServers" [Leaf.text "nameserver ", Leaf.dot, Leaf.text "\n"]] := by
  decide

/-! ### Rendering -/

theorem execRange_line (a b : String) (l : List String) :
    execRange [Leaf.text a, Leaf.dot, Leaf.text b] l =
      Except.ok (concatStrings (l.map (fun x => a ++ x ++ b))) := by
  induction l with
  | nil => rfl
  | cons x xs ih =>
    simp [execRange, execLeaves, execLeaf, ih, concatStrings, String.append_assoc]

theorem execute_centosDHCPConfigTemplate (servers : List String) :
    templateExecute (templateMust (templateParse centosDHCPConfigTemplate)) (dnsServersArg servers) =
      Except.ok (dhcpHeader ++ concatStrings (servers.map dhcpDirective)) := by
  rw [parse_centosDHCPConfigTemplate]
  simp [templateMust, templateExecute, execNode, execLeaf, evalField, dnsServersArg, List.lookup,
    execRange_line]
  rfl

theorem execute_centosResolvConfTemplate (servers : List String) :
    templateExecute (templateMust (templateParse centosResolvConfTemplate)) (dnsServersArg servers) =
      Except.ok ("# Generated by bosh-agent\n" ++ concatStrings (servers.map nameserverLine)) := by
  rw [parse_centosResolvConfTemplate]
  simp [templateMust, templateExecute, execNode, execLeaf, evalField, dnsServersArg, List.lookup,
    execRange_line]
  rfl

theorem execute_centosIfcgfTemplate (n : customNetwork) :
    templateExecute (templateMust (templateParse centosIfcgfTemplate)) n.fields =
      Except.ok (ifcfgText n) := by
  rw [parse_centosIfcgfTemplate]
  cases h : n.HasDefaultGateway <;>
  simp [templateMust, templateExecute, execNode, execLeaf, execLeaves, evalField,
    customNetwork.fields, List.lookup, printValue, truthy, ifcfgText, h, String.append_assoc]

/-! ### Splitting and joining -/

theorem splitChar_ne_nil (sep : Char) (cs : List Char) : splitChar sep cs ≠ [] := by
  induction cs with
  | nil => simp [splitChar]
  | cons c cs ih =>
    unfold splitChar
    split
    · simp
    · split <;> simp

theorem splitChar_of_not_mem (sep : Char) (cs : List Char) (h : sep ∉ cs) :
    splitChar sep cs = [cs] := by
  induction cs with
  | nil => rfl
  | cons c cs ih =>
    have hc : c ≠ sep := fun e => h (by simp [e])
    have hcs : sep ∉ cs := fun e => h (by simp [e])
    simp [splitChar, hc, ih hcs]

theorem splitChar_append (sep : Char) (a b : List Char) (h : sep ∉ a) :
    splitChar sep (a ++ sep :: b) = a :: splitChar sep b := by
  induction a with
  | nil => simp [splitChar]
  | cons c cs ih =>
    have hc : c ≠ sep := fun e => h (by simp [e])
    have hcs : sep ∉ cs := fun e => h (by simp [e])
    simp [splitChar, hc, ih hcs]

theorem splitChar_joinChar (sep : Char) (ls : List (List Char)) (hne : ls ≠ [])
    (h : ∀ l ∈ ls, sep ∉ l) : splitChar sep (joinChar sep ls) = ls := by
  induction ls with
  | nil => exact absurd rfl hne
  | cons l rest ih =>
    cases rest with
    | nil => simpa [joinChar] using splitChar_of_not_mem sep l (h l (by simp))
    | cons l2 rest2 =>
      have h1 : sep ∉ l := h l (by simp)
      have h2 : ∀ x ∈ l2 :: rest2, sep ∉ x := fun x hx => h x (by simp [hx])
      simp only [joinChar]
      rw [splitChar_append sep l _ h1, ih (by simp) h2]

theorem map_mk_data (ls : List String) : List.map (String.mk ∘ String.data) ls = ls := by
  induction ls with
  | nil => rfl
  | cons l rest ih => simp [ih]

theorem splitChar_terminated (ls : List String) (h : ∀ l ∈ ls, '\n' ∉ l.data) :
    splitChar '\n' (concatStrings (ls.map (fun l => l ++ "\n"))).data =
      ls.map String.data ++ [[]] := by
  induction ls with
  | nil => rfl
  | cons l rest ih =>
    have h1 : '\n' ∉ l.data := h l (by simp)
    have h2 : ∀ x ∈ rest, '\n' ∉ x.data := fun x hx => h x (by simp [hx])
    simp only [List.map_cons, concatStrings, String.data_append, List.cons_append]
    rw [List.append_assoc, List.singleton_append, splitChar_append '\n' _ _ h1, ih h2]

theorem linesOf_terminated (ls : List String) (h : ∀ l ∈ ls, '\n' ∉ l.data) :
    linesOf (concatStrings (ls.map (fun l => l ++ "\n"))) = ls := by
  unfold linesOf
  simp only [splitChar_terminated ls h]
  have hid : List.map (String.mk ∘ String.data) ls = ls := map_mk_data ls
  simp [List.getLast?_append, List.dropLast_append_of_ne_nil, hid]

theorem linesOf_unterminated (ls : List String) (last : String) (h : ∀ l ∈ ls, '\n' ∉ l.data)
    (hlast : '\n' ∉ last.data) (hne : last ≠ "") :
    linesOf (concatStrings (ls.map (fun l => l ++ "\n")) ++ last) = ls ++ [last] := by
  have key : splitChar '\n' (concatStrings (ls.map (fun l => l ++ "\n")) ++ last).data =
      ls.map String.data ++ [last.data] := by
    induction ls with
    | nil => simpa [concatStrings] using splitChar_of_not_mem '\n' last.data hlast
    | cons l rest ih =>
      have h1 : '\n' ∉ l.data := h l (by simp)
      have h2 : ∀ x ∈ rest, '\n' ∉ x.data := fun x hx => h x (by simp [hx])
      simp only [List.map_cons, concatStrings, String.data_append, List.cons_append] at ih ⊢
      rw [List.append_assoc, List.append_assoc, List.singleton_append,
        splitChar_append '\n' _ _ h1, ih h2]
  have hd : last.data ≠ [] := fun e => hne (by cases last; simp_all)
  unfold linesOf
  simp only [key]
  have hid : List.map (String.mk ∘ String.data) ls = ls := map_mk_data ls
  simp [List.getLast?_append, hd, hid]

/-! ### The DHCP and resolver artifacts -/

theorem SetupDhcp_converged {σ : Type} (sys : Sys σ) (s : σ) (networks : Networks) :
    convergedOf (SetupDhcp sys s networks).evs =
      [("/etc/dhcp/dhclient.conf",
        dhcpHeader ++ concatStrings ((DefaultNetworkFor networks "dns").1.DNS.map dhcpDirective))] := by
  unfold SetupDhcp
  simp only [execute_centosDHCPConfigTemplate]
  rcases h : sys.ConvergeFileContents s "/etc/dhcp/dhclient.conf"
    (dhcpHeader ++ concatStrings ((DefaultNetworkFor networks "dns").1.DNS.map dhcpDirective))
    with ⟨⟨written, err⟩, s1⟩
  cases err with
  | some e => simp [convergedOf]
  | none =>
    cases written with
    | false => simp [convergedOf]
    | true =>
      simp only [if_true, convergedOf]
      unfold restartNetwork
      rcases sys.RunCommand s1 "service" ["network", "restart"] with ⟨_ | e, s2⟩ <;>
        simp [convergedOf]

theorem DefaultNetworkFor_dns_untagged (networks : Networks)
    (h : ∀ n ∈ networks, n.DnsSource = false) :
    DefaultNetworkFor networks "dns" = (Network.zero, false) := by
  unfold DefaultNetworkFor
  have : networks.find? (fun n => n.IsDefaultFor "dns") = none := by
    rw [List.find?_eq_none]
    intro n hn
    simp [Network.IsDefaultFor, h n hn]
  rw [this]

set_option maxRecDepth 100000 in
/-- C4: for every list of DNS servers the DHCP artifact rendered from
centosDHCPConfigTemplate is the fixed header (generated-file comment, option
declaration, send host-name, request options) followed by one line
"prepend domain-name-servers s;" per server, each ended by a newline, in input
order; for the empty list it is the header alone, which holds no "prepend";
SetupDhcp converges exactly this text for the servers of the DNS network, and
the header alone when no network is tagged as DNS source. -/
theorem dhcp_artifact_one_directive_per_server {σ : Type} (sys : Sys σ) (s : σ)
    (networks : Networks) (servers : List String) :
    templateExecute (templateMust (templateParse centosDHCPConfigTemplate)) (dnsServersArg servers) =
        Except.ok (dhcpHeader ++
          concatStrings (servers.map (fun x => "prepend domain-name-servers " ++ x ++ ";\n")))
    ∧ templateExecute (templateMust (templateParse centosDHCPConfigTemplate)) (dnsServersArg []) =
        Except.ok dhcpHeader
    ∧ containsText dhcpHeader "prepend" = false
    ∧ linesOf dhcpHeader =
        ["# Generated by bosh-agent", "",
         "option rfc3442-classless-static-routes code 121 = array of unsigned integer 8;", "",
         "send host-name \"<hostname>\";", "",
         "request subnet-mask, broadcast-address, time-offset, routers,",
         "\tdomain-name, domain-name-servers, domain-search, host-name,",
         "\tnetbios-name-servers, netbios-scope, interface-mtu,",
         "\trfc3442-classless-static-routes, ntp-servers;", ""]
    ∧ convergedOf (SetupDhcp sys s networks).evs =
        [("/etc/dhcp/dhclient.conf", dhcpHeader ++
          concatStrings ((DefaultNetworkFor networks "dns").1.DNS.map
            (fun x => "prepend domain-name-servers " ++ x ++ ";\n")))]
    ∧ ((∀ n ∈ networks, n.DnsSource = false) →
        convergedOf (SetupDhcp sys s networks).evs = [("/etc/dhcp/dhclient.conf", dhcpHeader)]) := by
  refine ⟨execute_centosDHCPConfigTemplate servers, ?_, by decide, by decide,
    SetupDhcp_converged sys s networks, ?_⟩
  · simpa [concatStrings] using execute_centosDHCPConfigTemplate []
  · intro h
    rw [SetupDhcp_converged, DefaultNetworkFor_dns_untagged networks h]
    simp [Network.zero, concatStrings]

/-- Witness of C4: with the only network untagged, SetupDhcp on the in-memory
machine converges the header alone. -/
theorem dhcp_artifact_one_directive_per_server_witness :
    (∀ n ∈ [netA], n.DnsSource = false) ∧
      convergedOf (SetupDhcp (memSys noFailure) memStart [netA]).evs =
        [("/etc/dhcp/dhclient.conf", dhcpHeader)] :=
  ⟨by decide,
    (dhcp_artifact_one_directive_per_server (memSys noFailure) memStart [netA] []).2.2.2.2.2
      (by decide)⟩

theorem writeResolvConf_writes {σ : Type} (sys : Sys σ) (s : σ) (networks : Networks) :
    writesOf (writeResolvConf sys s networks).evs =
      [("/etc/resolv.conf",
        "# Generated by bosh-agent\n" ++ concatStrings ((getDNSServers networks).map nameserverLine))] := by
  unfold writeResolvConf
  simp only [execute_centosResolvConfTemplate]
  rcases sys.WriteFile s "/etc/resolv.conf"
    ("# Generated by bosh-agent\n" ++ concatStrings ((getDNSServers networks).map nameserverLine))
    with ⟨_ | e, s1⟩ <;> simp [writesOf]

theorem resolv_text_eq (servers : List String) :
    "# Generated by bosh-agent\n" ++
        concatStrings (servers.map (fun x => "nameserver " ++ x ++ "\n")) =
      concatStrings
        (("# Generated by bosh-agent" :: servers.map (fun x => "nameserver " ++ x)).map
          (fun l => l ++ "\n")) := by
  simp [concatStrings, Function.comp_def]

/-- The lines of the resolver artifact, for servers without a newline in
them: the header line, then one line per server. -/
theorem resolv_lines (servers : List String) (h : ∀ x ∈ servers, '\n' ∉ x.data) :
    linesOf ("# Generated by bosh-agent\n" ++
        concatStrings (servers.map (fun x => "nameserver " ++ x ++ "\n"))) =
      "# Generated by bosh-agent" :: servers.map (fun x => "nameserver " ++ x) := by
  rw [resolv_text_eq, linesOf_terminated]
  intro l hl
  simp only [List.mem_cons, List.mem_map] at hl
  rcases hl with rfl | ⟨x, hx, rfl⟩
  · decide
  · have := h x hx
    simp only [String.data_append, List.mem_append, not_or]
    exact ⟨by decide, this⟩

/-- The servers getDNSServers returns: the DNS list of the first network tagged
as DNS source, the empty list when none is tagged. -/
theorem getDNSServers_eq (networks : Networks) :
    getDNSServers networks =
      ((networks.find? (fun n => n.DnsSource)).map (fun n => n.DNS)).getD [] := by
  have hf : (fun n : Network => n.IsDefaultFor "dns") = (fun n => n.DnsSource) := by
    funext n
    simp [Network.IsDefaultFor]
  unfold getDNSServers DefaultNetworkFor
  rw [hf]
  cases networks.find? (fun n => n.DnsSource) <;> rfl

/-- C5: for every list of DNS servers the resolver artifact rendered from
centosResolvConfTemplate is the generated-file header line followed by one line
"nameserver s" per server, each ended by a newline, in input order, and nothing
else; for the empty list it is the header line alone, with no line after it.
writeResolvConf writes exactly this text to /etc/resolv.conf, for the DNS list
of the first network tagged as DNS source (the empty list when none is tagged);
so for every list of servers, a pass over a tagged network that carries the
list writes the header and its n nameserver lines. -/
theorem resolv_artifact_one_line_per_server {σ : Type} (sys : Sys σ) (s : σ)
    (networks : Networks) (servers : List String) (net : Network) :
    templateExecute (templateMust (templateParse centosResolvConfTemplate)) (dnsServersArg servers) =
        Except.ok ("# Generated by bosh-agent\n" ++
          concatStrings (servers.map (fun x => "nameserver " ++ x ++ "\n")))
    ∧ templateExecute (templateMust (templateParse centosResolvConfTemplate)) (dnsServersArg []) =
        Except.ok "# Generated by bosh-agent\n"
    ∧ linesOf "# Generated by bosh-agent\n" = ["# Generated by bosh-agent"]
    ∧ writesOf (writeResolvConf sys s networks).evs =
        [("/etc/resolv.conf", "# Generated by bosh-agent\n" ++
          concatStrings ((((networks.find? (fun n => n.DnsSource)).map (fun n => n.DNS)).getD []).map
            (fun x => "nameserver " ++ x ++ "\n")))]
    ∧ writesOf (writeResolvConf sys s
          [⟨net.IP, net.Netmask, net.Gateway, net.Mac, servers, true, net.DefaultRouteSource⟩]).evs =
        [("/etc/resolv.conf", "# Generated by bosh-agent\n" ++
          concatStrings (servers.map (fun x => "nameserver " ++ x ++ "\n")))] := by
  refine ⟨execute_centosResolvConfTemplate servers, ?_, by decide, ?_, ?_⟩
  · simpa [concatStrings] using execute_centosResolvConfTemplate []
  · rw [writeResolvConf_writes, getDNSServers_eq]
    rfl
  · rw [writeResolvConf_writes, getDNSServers_eq]
    rfl

/-- Witness of C5: on the in-memory machine, with netA untagged and netB tagged
as DNS source, writeResolvConf writes the header line and the one nameserver
line of netB to /etc/resolv.conf. -/
theorem resolv_artifact_one_line_per_server_witness :
    writesOf (writeResolvConf (memSys noFailure) memStart [netA, netB]).evs =
        [("/etc/resolv.conf", "# Generated by bosh-agent\n" ++
          concatStrings (((([netA, netB].find? (fun n => n.DnsSource)).map (fun n => n.DNS)).getD []).map
            (fun x => "nameserver " ++ x ++ "\n")))] ∧
      writesOf (writeResolvConf (memSys noFailure) memStart [netA, netB]).evs =
        [("/etc/resolv.conf", "# Generated by bosh-agent\nnameserver 1.1.1.1\n")] :=
  ⟨(resolv_artifact_one_line_per_server (memSys noFailure) memStart [netA, netB] [] netA).2.2.2.1,
   by decide⟩

/-! ### Traces -/

theorem commandsOf_append (a b : List Event) :
    commandsOf (a ++ b) = commandsOf a ++ commandsOf b := by
  induction a with
  | nil => rfl
  | cons e es ih =>
    rcases e with ⟨c, err⟩
    cases c <;> simp [commandsOf, ih]

theorem writesOf_append (a b : List Event) :
    writesOf (a ++ b) = writesOf a ++ writesOf b := by
  induction a with
  | nil => rfl
  | cons e es ih =>
    rcases e with ⟨c, err⟩
    cases c <;> simp [writesOf, ih]

theorem NoFatal_nil : NoFatal [] := by
  intro e he
  cases he

theorem NoFatal_cons {e : Event} {evs : List Event} (he : e.fatal = false) (h : NoFatal evs) :
    NoFatal (e :: evs) := by
  intro x hx
  rcases List.mem_cons.mp hx with rfl | hx
  · exact he
  · exact h x hx

theorem NoFatal_append {a b : List Event} (ha : NoFatal a) (hb : NoFatal b) : NoFatal (a ++ b) := by
  intro x hx
  rcases List.mem_append.mp hx with hx | hx
  · exact ha x hx
  · exact hb x hx

theorem FatalLast_append {a b : List Event} (ha : NoFatal a) (hb : FatalLast b) :
    FatalLast (a ++ b) := by
  obtain ⟨pre, e, rfl, hpre, he⟩ := hb
  exact ⟨a ++ pre, e, by simp, NoFatal_append ha hpre, he⟩

theorem FatalLast_single {e : Event} (he : e.fatal = true) : FatalLast [e] :=
  ⟨[], e, rfl, NoFatal_nil, he⟩

theorem Outcome_append {a b : List Event} {err : Option GoError} (ha : NoFatal a)
    (hb : Outcome err b) : Outcome err (a ++ b) := by
  rcases hb with ⟨h1, h2⟩ | ⟨h1, h2⟩
  · exact Or.inl ⟨h1, NoFatal_append ha h2⟩
  · exact Or.inr ⟨h1, FatalLast_append ha h2⟩

theorem FatalLast_not_NoFatal {evs : List Event} (h : FatalLast evs) : ¬ NoFatal evs := by
  obtain ⟨pre, e, rfl, _, he⟩ := h
  intro hn
  have := hn e (by simp)
  rw [he] at this
  cases this

/-- In a trace that ends at its only fatal call, nothing follows a fatal call. -/
theorem FatalLast_split {evs pre post : List Event} {e : Event} (h : FatalLast evs)
    (hs : evs = pre ++ e :: post) (he : e.fatal = true) : post = [] := by
  obtain ⟨pre2, e2, rfl, hpre2, _⟩ := h
  by_contra hne
  have hmem : e ∈ pre2 := by
    have hd : (pre2 ++ [e2]).dropLast = pre2 := by simp
    have hd2 : (pre ++ e :: post).dropLast = pre ++ (e :: post).dropLast := by
      rw [List.dropLast_append_of_ne_nil]
      simp
    rw [hs, hd2] at hd
    rw [← hd]
    cases post with
    | nil => exact absurd rfl hne
    | cons p ps => simp [List.dropLast]
  have := hpre2 e hmem
  rw [he] at this
  cases this

/-! ### The loops of the static pass -/

theorem restartNetwork_commands {σ : Type} (sys : Sys σ) (s : σ) :
    commandsOf (restartNetwork sys s).evs = [restartCommand] ∧
      writesOf (restartNetwork sys s).evs = [] ∧ NoFatal (restartNetwork sys s).evs := by
  unfold restartNetwork
  rcases sys.RunCommand s "service" ["network", "restart"] with ⟨_ | e, s1⟩
  · refine ⟨rfl, rfl, ?_⟩
    intro x hx
    simp at hx
    subst hx
    rfl
  · refine ⟨rfl, rfl, ?_⟩
    intro x hx
    simp at hx
    rcases hx with rfl | rfl <;> rfl

theorem detectMacAddressesLoop_outcome {σ : Type} (sys : Sys σ) (s : σ) (filePaths : List String)
    (addresses : GoMap) :
    Outcome (detectMacAddressesLoop sys s filePaths addresses).1.2
        (detectMacAddressesLoop sys s filePaths addresses).2 ∧
      commandsOf (detectMacAddressesLoop sys s filePaths addresses).2 = [] ∧
      writesOf (detectMacAddressesLoop sys s filePaths addresses).2 = [] := by
  induction filePaths generalizing addresses with
  | nil => exact ⟨Or.inl ⟨rfl, NoFatal_nil⟩, rfl, rfl⟩
  | cons filePath rest ih =>
    unfold detectMacAddressesLoop
    cases h : sys.ReadFileString s (filepathJoin [filePath, "address"]) with
    | error err =>
      exact ⟨Or.inr ⟨by simp, FatalLast_single rfl⟩, rfl, rfl⟩
    | ok mac =>
      obtain ⟨h1, h2, h3⟩ := ih (addresses.set (stringsTrim mac "\n") (filepathBase filePath))
      refine ⟨?_, ?_, ?_⟩
      · exact Outcome_append (a := [_]) (NoFatal_cons rfl NoFatal_nil) h1
      · simpa [commandsOf] using h2
      · simpa [writesOf] using h3

theorem detectMacAddresses_outcome {σ : Type} (sys : Sys σ) (s : σ) :
    Outcome (detectMacAddresses sys s).1.2 (detectMacAddresses sys s).2 ∧
      commandsOf (detectMacAddresses sys s).2 = [] ∧
      writesOf (detectMacAddresses sys s).2 = [] := by
  unfold detectMacAddresses
  cases h : sys.Glob s "/sys/class/net/*" with
  | error err => exact ⟨Or.inr ⟨by simp, FatalLast_single rfl⟩, rfl, rfl⟩
  | ok filePaths =>
    obtain ⟨h1, h2, h3⟩ := detectMacAddressesLoop_outcome sys s filePaths GoMap.empty
    refine ⟨?_, ?_, ?_⟩
    · exact Outcome_append (a := [_]) (NoFatal_cons rfl NoFatal_nil) h1
    · simpa [commandsOf] using h2
    · simpa [writesOf] using h3

theorem newNetFor_of_ok {σ : Type} (sys : Sys σ) (macAddresses : GoMap) (aNet : Network)
    (network broadcast : String)
    (h : sys.CalculateNetworkAndBroadcast aNet.IP aNet.Netmask = Except.ok (network, broadcast)) :
    newNetFor sys macAddresses aNet = ⟨aNet, macAddresses.index aNet.Mac, network, broadcast, true⟩ := by
  simp [newNetFor, h]

theorem writeIfcfgsLoop_calc_error {σ : Type} (sys : Sys σ) (macAddresses : GoMap) (aNet : Network)
    (rest : Networks) (modifiedNetworks : List customNetwork) (s : σ) (err : GoError)
    (h : sys.CalculateNetworkAndBroadcast aNet.IP aNet.Netmask = Except.error err) :
    writeIfcfgsLoop sys macAddresses (aNet :: rest) modifiedNetworks s =
      ⟨(modifiedNetworks, some (WrapError err "Calculating network and broadcast")), s,
        [⟨Call.CalculateNetworkAndBroadcast aNet.IP aNet.Netmask, some err⟩]⟩ := by
  rw [writeIfcfgsLoop]
  simp only [h]

theorem writeIfcfgsLoop_write_error {σ : Type} (sys : Sys σ) (macAddresses : GoMap) (aNet : Network)
    (rest : Networks) (modifiedNetworks : List customNetwork) (s s1 : σ) (p : String × String)
    (err : GoError)
    (h : sys.CalculateNetworkAndBroadcast aNet.IP aNet.Netmask = Except.ok p)
    (hw : sys.WriteFile s (ifcfgPath (newNetFor sys macAddresses aNet))
      (ifcfgText (newNetFor sys macAddresses aNet)) = (some err, s1)) :
    writeIfcfgsLoop sys macAddresses (aNet :: rest) modifiedNetworks s =
      ⟨(modifiedNetworks ++ [newNetFor sys macAddresses aNet],
          some (WrapError err "Writing to /etc/sysconfig/network-scripts")), s1,
        [⟨Call.CalculateNetworkAndBroadcast aNet.IP aNet.Netmask, none⟩,
         ⟨Call.WriteFile (ifcfgPath (newNetFor sys macAddresses aNet))
            (ifcfgText (newNetFor sys macAddresses aNet)), some err⟩]⟩ := by
  obtain ⟨network, broadcast⟩ := p
  have hn := newNetFor_of_ok sys macAddresses aNet network broadcast h
  rw [hn] at hw ⊢
  simp only [ifcfgPath] at hw ⊢
  rw [writeIfcfgsLoop]
  simp only [h, execute_centosIfcgfTemplate, hw]

theorem writeIfcfgsLoop_write_ok {σ : Type} (sys : Sys σ) (macAddresses : GoMap) (aNet : Network)
    (rest : Networks) (modifiedNetworks : List customNetwork) (s s1 : σ) (p : String × String)
    (h : sys.CalculateNetworkAndBroadcast aNet.IP aNet.Netmask = Except.ok p)
    (hw : sys.WriteFile s (ifcfgPath (newNetFor sys macAddresses aNet))
      (ifcfgText (newNetFor sys macAddresses aNet)) = (none, s1)) :
    writeIfcfgsLoop sys macAddresses (aNet :: rest) modifiedNetworks s =
      ⟨(writeIfcfgsLoop sys macAddresses rest
          (modifiedNetworks ++ [newNetFor sys macAddresses aNet]) s1).val,
        (writeIfcfgsLoop sys macAddresses rest
          (modifiedNetworks ++ [newNetFor sys macAddresses aNet]) s1).st,
        ⟨Call.CalculateNetworkAndBroadcast aNet.IP aNet.Netmask, none⟩ ::
          ⟨Call.WriteFile (ifcfgPath (newNetFor sys macAddresses aNet))
            (ifcfgText (newNetFor sys macAddresses aNet)), none⟩ ::
          (writeIfcfgsLoop sys macAddresses rest
            (modifiedNetworks ++ [newNetFor sys macAddresses aNet]) s1).evs⟩ := by
  obtain ⟨network, broadcast⟩ := p
  have hn := newNetFor_of_ok sys macAddresses aNet network broadcast h
  rw [hn] at hw ⊢
  simp only [ifcfgPath] at hw ⊢
  rw [writeIfcfgsLoop]
  simp only [h, execute_centosIfcgfTemplate, hw]

/-- The loop of writeIfcfgs handles a first part of the networks: it appends
their customNetworks, attempts their writes, runs no command, and ends at the
first fatal error, if any. -/
theorem writeIfcfgsLoop_spec {σ : Type} (sys : Sys σ) (macAddresses : GoMap) (networks : Networks)
    (modifiedNetworks : List customNetwork) (s : σ) :
    ∃ k, k ≤ networks.length ∧
      (writeIfcfgsLoop sys macAddresses networks modifiedNetworks s).val.1 =
        modifiedNetworks ++ (networks.take k).map (newNetFor sys macAddresses) ∧
      writesOf (writeIfcfgsLoop sys macAddresses networks modifiedNetworks s).evs =
        (networks.take k).map (fun n => ifcfgFile (newNetFor sys macAddresses n)) ∧
      ((writeIfcfgsLoop sys macAddresses networks modifiedNetworks s).val.2 = none →
        k = networks.length) ∧
      commandsOf (writeIfcfgsLoop sys macAddresses networks modifiedNetworks s).evs = [] ∧
      Outcome (writeIfcfgsLoop sys macAddresses networks modifiedNetworks s).val.2
        (writeIfcfgsLoop sys macAddresses networks modifiedNetworks s).evs := by
  induction networks generalizing modifiedNetworks s with
  | nil => exact ⟨0, le_refl _, by simp [writeIfcfgsLoop], rfl, fun _ => rfl, rfl,
      Or.inl ⟨rfl, NoFatal_nil⟩⟩
  | cons aNet rest ih =>
    cases h : sys.CalculateNetworkAndBroadcast aNet.IP aNet.Netmask with
    | error err =>
      rw [writeIfcfgsLoop_calc_error sys macAddresses aNet rest modifiedNetworks s err h]
      exact ⟨0, Nat.zero_le _, by simp, rfl, fun h => by simp at h, rfl,
        Or.inr ⟨by simp, FatalLast_single rfl⟩⟩
    | ok p =>
      rcases hw : sys.WriteFile s (ifcfgPath (newNetFor sys macAddresses aNet))
        (ifcfgText (newNetFor sys macAddresses aNet)) with ⟨_ | err, s1⟩
      · rw [writeIfcfgsLoop_write_ok sys macAddresses aNet rest modifiedNetworks s s1 p h hw]
        obtain ⟨k, hk, h1, h2, h3, h4, h5⟩ :=
          ih (modifiedNetworks ++ [newNetFor sys macAddresses aNet]) s1
        refine ⟨k + 1, by simpa using hk, ?_, ?_, ?_, ?_, ?_⟩
        · simpa using h1
        · simpa [writesOf, ifcfgFile] using h2
        · intro hnone
          simpa using h3 hnone
        · simpa [commandsOf] using h4
        · exact Outcome_append (a := [_, _]) (NoFatal_cons rfl (NoFatal_cons rfl NoFatal_nil)) h5
      · rw [writeIfcfgsLoop_write_error sys macAddresses aNet rest modifiedNetworks s s1 p err h hw]
        refine ⟨1, by simp, by simp, by simp [writesOf, ifcfgFile],
          fun h => by simp at h, rfl, Or.inr ⟨by simp, ?_⟩⟩
        exact FatalLast_append (a := [_]) (NoFatal_cons rfl NoFatal_nil) (FatalLast_single rfl)

/-! ### The static pass -/

theorem Outcome_noFatal_of_none {err : Option GoError} {evs : List Event} (h : Outcome err evs)
    (hn : err = none) : NoFatal evs := by
  rcases h with ⟨_, h2⟩ | ⟨h1, _⟩
  · exact h2
  · exact absurd hn h1

theorem Outcome_fatalLast_of_some {err : Option GoError} {evs : List Event} (h : Outcome err evs)
    (hn : err ≠ none) : FatalLast evs := by
  rcases h with ⟨h1, _⟩ | ⟨_, h2⟩
  · exact absurd h1 hn
  · exact h2

/-- What writeIfcfgs returns and leaves in its trace, in terms of the map that
detectMacAddresses returns on the same state. -/
theorem writeIfcfgs_spec {σ : Type} (sys : Sys σ) (s : σ) (networks : Networks) :
    ∃ k, k ≤ networks.length ∧
      (writeIfcfgs sys s networks).val.1 =
        (networks.take k).map (newNetFor sys (detectMacAddresses sys s).1.1) ∧
      writesOf (writeIfcfgs sys s networks).evs =
        (networks.take k).map (fun n => ifcfgFile (newNetFor sys (detectMacAddresses sys s).1.1 n)) ∧
      ((writeIfcfgs sys s networks).val.2 = none →
        k = networks.length ∧ (detectMacAddresses sys s).1.2 = none) ∧
      commandsOf (writeIfcfgs sys s networks).evs = [] ∧
      Outcome (writeIfcfgs sys s networks).val.2 (writeIfcfgs sys s networks).evs := by
  obtain ⟨d1, d2, d3⟩ := detectMacAddresses_outcome sys s
  unfold writeIfcfgs
  rcases hd : detectMacAddresses sys s with ⟨⟨macAddresses, _ | err⟩, evs⟩
  · rw [hd] at d1 d2 d3
    obtain ⟨k, hk, h1, h2, h3, h4, h5⟩ := writeIfcfgsLoop_spec sys macAddresses networks [] s
    refine ⟨k, hk, by simpa using h1, ?_, fun h => ⟨h3 h, rfl⟩, ?_, ?_⟩
    · simp only [writesOf_append]
      rw [h2]
      simpa using d3
    · simp only [commandsOf_append]
      rw [h4]
      simpa using d2
    · exact Outcome_append (Outcome_noFatal_of_none d1 rfl) h5
  · rw [hd] at d1 d2 d3
    refine ⟨0, Nat.zero_le _, by simp, by simpa using d3, fun h => by simp at h, by simpa using d2, ?_⟩
    exact Or.inr ⟨by simp, Outcome_fatalLast_of_some d1 (by simp)⟩

theorem writeResolvConf_outcome {σ : Type} (sys : Sys σ) (s : σ) (networks : Networks) :
    Outcome (writeResolvConf sys s networks).val (writeResolvConf sys s networks).evs ∧
      commandsOf (writeResolvConf sys s networks).evs = [] := by
  unfold writeResolvConf
  simp only [execute_centosResolvConfTemplate]
  rcases sys.WriteFile s "/etc/resolv.conf"
    ("# Generated by bosh-agent\n" ++ concatStrings ((getDNSServers networks).map nameserverLine))
    with ⟨_ | e, s1⟩
  · exact ⟨Or.inl ⟨rfl, NoFatal_cons rfl NoFatal_nil⟩, rfl⟩
  · exact ⟨Or.inr ⟨by simp, FatalLast_single rfl⟩, rfl⟩

theorem SetupManualNetworking_of_write_error {σ : Type} (sys : Sys σ) (s : σ) (networks : Networks)
    (errCh : Bool) (err : GoError) (h : (writeIfcfgs sys s networks).val.2 = some err) :
    SetupManualNetworking sys s networks errCh =
      ⟨⟨some (WrapError err "Writing network interfaces"), none⟩,
        (writeIfcfgs sys s networks).st, (writeIfcfgs sys s networks).evs⟩ := by
  unfold SetupManualNetworking
  simp only [h]

theorem SetupManualNetworking_of_write_ok {σ : Type} (sys : Sys σ) (s : σ) (networks : Networks)
    (errCh : Bool) (h : (writeIfcfgs sys s networks).val.2 = none) :
    (SetupManualNetworking sys s networks errCh).evs =
        (writeIfcfgs sys s networks).evs ++ (restartNetwork sys (writeIfcfgs sys s networks).st).evs ++
          (writeResolvConf sys (restartNetwork sys (writeIfcfgs sys s networks).st).st networks).evs ∧
      (SetupManualNetworking sys s networks errCh).val.err =
        ((writeResolvConf sys (restartNetwork sys (writeIfcfgs sys s networks).st).st networks).val.map
          (fun e => WrapError e "Writing resolv.conf")) ∧
      (SetupManualNetworking sys s networks errCh).val.launched =
        (match (writeResolvConf sys (restartNetwork sys (writeIfcfgs sys s networks).st).st networks).val with
          | some _ => none
          | none => some ((writeIfcfgs sys s networks).val.1, errCh)) := by
  unfold SetupManualNetworking
  simp only [h]
  cases (writeResolvConf sys (restartNetwork sys (writeIfcfgs sys s networks).st).st networks).val <;>
    simp

/-- The trace of SetupManualNetworking: the error returned goes with a trace
that ends at its only fatal call; the goroutine is started exactly when nil is
returned; the restart command is the only command, run once exactly when
writeIfcfgs returned nil. -/
theorem SetupManualNetworking_spec {σ : Type} (sys : Sys σ) (s : σ) (networks : Networks)
    (errCh : Bool) :
    Outcome (SetupManualNetworking sys s networks errCh).val.err
        (SetupManualNetworking sys s networks errCh).evs ∧
      ((SetupManualNetworking sys s networks errCh).val.err ≠ none →
        (SetupManualNetworking sys s networks errCh).val.launched = none) ∧
      ((SetupManualNetworking sys s networks errCh).val.err = none →
        (SetupManualNetworking sys s networks errCh).val.launched =
          some ((writeIfcfgs sys s networks).val.1, errCh) ∧
        (writeIfcfgs sys s networks).val.2 = none) ∧
      commandsOf (SetupManualNetworking sys s networks errCh).evs =
        (if (writeIfcfgs sys s networks).val.2 = none then [restartCommand] else []) := by
  obtain ⟨k, _, _, _, _, hc, ho⟩ := writeIfcfgs_spec sys s networks
  cases hw : (writeIfcfgs sys s networks).val.2 with
  | some err =>
    rw [SetupManualNetworking_of_write_error sys s networks errCh err hw]
    rw [hw] at ho
    exact ⟨Or.inr ⟨by simp, Outcome_fatalLast_of_some ho (by simp)⟩, fun _ => rfl,
      fun h => by simp at h, by simpa using hc⟩
  | none =>
    obtain ⟨e1, e2, e3⟩ := SetupManualNetworking_of_write_ok sys s networks errCh hw
    obtain ⟨r1, r2, r3⟩ := restartNetwork_commands sys (writeIfcfgs sys s networks).st
    obtain ⟨c1, c2⟩ := writeResolvConf_outcome sys
      (restartNetwork sys (writeIfcfgs sys s networks).st).st networks
    rw [hw] at ho
    have hclean := Outcome_noFatal_of_none ho rfl
    rw [e1, e2, e3]
    refine ⟨?_, ?_, ?_, ?_⟩
    · rw [List.append_assoc]
      apply Outcome_append hclean
      apply Outcome_append r3
      rcases c1 with ⟨h1, h2⟩ | ⟨h1, h2⟩
      · exact Or.inl ⟨by simp [h1], h2⟩
      · refine Or.inr ⟨?_, h2⟩
        cases hv : (writeResolvConf sys (restartNetwork sys (writeIfcfgs sys s networks).st).st
          networks).val with
        | none => exact absurd hv h1
        | some e => simp
    · intro h
      cases hv : (writeResolvConf sys (restartNetwork sys (writeIfcfgs sys s networks).st).st
          networks).val with
      | none => simp [hv] at h
      | some e => rfl
    · intro h
      cases hv : (writeResolvConf sys (restartNetwork sys (writeIfcfgs sys s networks).st).st
          networks).val with
      | none => exact ⟨rfl, rfl⟩
      | some e => simp [hv] at h
    · simp [commandsOf_append, hc, r1, c2]

/-! ### Paths -/

theorem stringsJoin_pair (a b : String) : stringsJoin [a, b] "/" = a ++ "/" ++ b := by
  simp [stringsJoin, String.intercalate, String.intercalate.go]

/-- For a device name without a slash, the interface file lies directly in
the directory of the network scripts. -/
theorem filepathJoin_ifcfg (name : String) (h : '/' ∉ name.data) :
    filepathJoin ["/etc/sysconfig/network-scripts", "ifcfg-" ++ name] =
      "/etc/sysconfig/network-scripts/ifcfg-" ++ name := by
  have hx : '/' ∉ ("ifcfg-" ++ name).data := by
    simp only [String.data_append, List.mem_append, not_or]
    exact ⟨by decide, h⟩
  have hsplit : splitChar '/' ("/etc/sysconfig/network-scripts" ++ "/" ++ ("ifcfg-" ++ name)).data =
      [[], "etc".data, "sysconfig".data, "network-scripts".data, ("ifcfg-" ++ name).data] := by
    have e : ("/etc/sysconfig/network-scripts" ++ "/" ++ ("ifcfg-" ++ name)).data =
        joinChar '/' [[], "etc".data, "sysconfig".data, "network-scripts".data,
          ("ifcfg-" ++ name).data] := by
      simp [joinChar]
    rw [e]
    apply splitChar_joinChar
    · simp
    · intro l hl
      simp only [List.mem_cons, List.mem_singleton, List.not_mem_nil, or_false] at hl
      rcases hl with rfl | rfl | rfl | rfl | rfl
      · simp
      · decide
      · decide
      · decide
      · exact hx
  have hne : ("/etc/sysconfig/network-scripts" : String) ≠ "" := by decide
  simp only [filepathJoin, hne, ne_eq, not_false_eq_true, if_true, stringsJoin_pair]
  unfold filepathClean
  simp only [hsplit]
  apply String.ext
  simp [cleanStep, joinChar]

theorem detectMacAddressesLoop_read_ok {σ : Type} (sys : Sys σ) (s : σ) (filePaths : List String)
    (addresses : GoMap) (h : (detectMacAddressesLoop sys s filePaths addresses).1.2 = none) :
    ∀ p ∈ filePaths, ∃ c, sys.ReadFileString s (filepathJoin [p, "address"]) = Except.ok c := by
  induction filePaths generalizing addresses with
  | nil => intro p hp; cases hp
  | cons filePath rest ih =>
    rw [detectMacAddressesLoop] at h
    cases hr : sys.ReadFileString s (filepathJoin [filePath, "address"]) with
    | error err => simp [hr] at h
    | ok mac =>
      simp only [hr] at h
      intro p hp
      rcases List.mem_cons.mp hp with rfl | hp
      · exact ⟨mac, hr⟩
      · exact ih _ h p hp

/-- When detectMacAddresses returns nil, the glob and every address read
succeeded. -/
theorem detectMacAddresses_ok {σ : Type} (sys : Sys σ) (s : σ)
    (h : (detectMacAddresses sys s).1.2 = none) :
    ∃ filePaths, sys.Glob s "/sys/class/net/*" = Except.ok filePaths ∧
      ∀ p ∈ filePaths, ∃ c, sys.ReadFileString s (filepathJoin [p, "address"]) = Except.ok c := by
  unfold detectMacAddresses at h
  cases hg : sys.Glob s "/sys/class/net/*" with
  | error err => simp [hg] at h
  | ok filePaths =>
    simp only [hg] at h
    exact ⟨filePaths, rfl, detectMacAddressesLoop_read_ok sys s filePaths GoMap.empty h⟩

theorem writeIfcfgsLoop_calc_ok {σ : Type} (sys : Sys σ) (macAddresses : GoMap) (networks : Networks)
    (modifiedNetworks : List customNetwork) (s : σ)
    (h : (writeIfcfgsLoop sys macAddresses networks modifiedNetworks s).val.2 = none) :
    ∀ n ∈ networks, ∃ p, sys.CalculateNetworkAndBroadcast n.IP n.Netmask = Except.ok p := by
  induction networks generalizing modifiedNetworks s with
  | nil => intro n hn; cases hn
  | cons aNet rest ih =>
    cases hc : sys.CalculateNetworkAndBroadcast aNet.IP aNet.Netmask with
    | error err =>
      rw [writeIfcfgsLoop_calc_error sys macAddresses aNet rest modifiedNetworks s err hc] at h
      simp at h
    | ok p =>
      rcases hw : sys.WriteFile s (ifcfgPath (newNetFor sys macAddresses aNet))
        (ifcfgText (newNetFor sys macAddresses aNet)) with ⟨_ | err, s1⟩
      · rw [writeIfcfgsLoop_write_ok sys macAddresses aNet rest modifiedNetworks s s1 p hc hw] at h
        intro n hn
        rcases List.mem_cons.mp hn with rfl | hn
        · exact ⟨p, hc⟩
        · exact ih _ _ h n hn
      · rw [writeIfcfgsLoop_write_error sys macAddresses aNet rest modifiedNetworks s s1 p err hc hw] at h
        simp at h

/-- When writeIfcfgs returns nil, device resolution succeeded and so did the
subnet computation of every network. -/
theorem writeIfcfgs_ok {σ : Type} (sys : Sys σ) (s : σ) (networks : Networks)
    (h : (writeIfcfgs sys s networks).val.2 = none) :
    (detectMacAddresses sys s).1.2 = none ∧
      ∀ n ∈ networks, ∃ p, sys.CalculateNetworkAndBroadcast n.IP n.Netmask = Except.ok p := by
  unfold writeIfcfgs at h
  rcases hd : detectMacAddresses sys s with ⟨⟨macAddresses, _ | err⟩, evs⟩
  · simp only [hd] at h
    exact ⟨rfl, writeIfcfgsLoop_calc_ok sys macAddresses networks [] s h⟩
  · simp [hd] at h

/-! ### C1: the gateway line -/

/-- C1 fails as stated: netA is not tagged as the default-route source, yet the
customNetwork that writeIfcfgs builds for it has HasDefaultGateway = true, and
the interface file written for it holds the line GATEWAY=10.0.0.1. -/
theorem gateway_flag_counterexample :
    netA.DefaultRouteSource = false ∧
    (writeIfcfgs (memSys noFailure) memStart [netA]).val =
      ([⟨netA, "eth0", "10.0.0.0", "10.0.0.255", true⟩], none) ∧
    ¬ (∀ cn ∈ (writeIfcfgs (memSys noFailure) memStart [netA]).val.1,
        (cn.HasDefaultGateway = true ↔ cn.Network.DefaultRouteSource = true)) ∧
    writesOf (writeIfcfgs (memSys noFailure) memStart [netA]).evs =
      [("/etc/sysconfig/network-scripts/ifcfg-eth0",
        "DEVICE=eth0\nBOOTPROTO=static\nIPADDR=10.0.0.5\nNETMASK=255.255.255.0\nBROADCAST=10.0.0.255\nGATEWAY=10.0.0.1\nONBOOT=yes")] ∧
    "GATEWAY=10.0.0.1" ∈ linesOf
      "DEVICE=eth0\nBOOTPROTO=static\nIPADDR=10.0.0.5\nNETMASK=255.255.255.0\nBROADCAST=10.0.0.255\nGATEWAY=10.0.0.1\nONBOOT=yes" := by
  decide

theorem newNetFor_flag {σ : Type} (sys : Sys σ) (macAddresses : GoMap) (aNet : Network) :
    (newNetFor sys macAddresses aNet).HasDefaultGateway = true ∧
      (newNetFor sys macAddresses aNet).Network = aNet ∧
      (newNetFor sys macAddresses aNet).Interface = macAddresses.index aNet.Mac := by
  unfold newNetFor
  split <;> exact ⟨rfl, rfl, rfl⟩

theorem ifcfgText_of_flag (cn : customNetwork) (h : cn.HasDefaultGateway = true) :
    ifcfgText cn =
      "DEVICE=" ++ cn.Interface ++ "\nBOOTPROTO=static\nIPADDR=" ++ cn.Network.IP ++ "\nNETMASK=" ++
        cn.Network.Netmask ++ "\nBROADCAST=" ++ cn.Broadcast ++ "\nGATEWAY=" ++ cn.Network.Gateway ++
        "\nONBOOT=yes" := by
  apply String.ext
  simp [ifcfgText, h]

/-- The interface files attempted by writeIfcfgs are those of the networks it
returns, in order. -/
theorem writeIfcfgs_writes_eq {σ : Type} (sys : Sys σ) (s : σ) (networks : Networks) :
    writesOf (writeIfcfgs sys s networks).evs = (writeIfcfgs sys s networks).val.1.map ifcfgFile := by
  obtain ⟨k, _, h1, h2, _⟩ := writeIfcfgs_spec sys s networks
  rw [h1, h2]
  simp [Function.comp_def]

theorem ifcfg_lines (dev ip mask bc gw : String) (h1 : '\n' ∉ dev.data) (h2 : '\n' ∉ ip.data)
    (h3 : '\n' ∉ mask.data) (h4 : '\n' ∉ bc.data) (h5 : '\n' ∉ gw.data) :
    linesOf ("DEVICE=" ++ dev ++ "\nBOOTPROTO=static\nIPADDR=" ++ ip ++ "\nNETMASK=" ++
        mask ++ "\nBROADCAST=" ++ bc ++ "\nGATEWAY=" ++ gw ++ "\nONBOOT=yes") =
      ["DEVICE=" ++ dev, "BOOTPROTO=static", "IPADDR=" ++ ip, "NETMASK=" ++ mask,
       "BROADCAST=" ++ bc, "GATEWAY=" ++ gw, "ONBOOT=yes"] := by
  have e : "DEVICE=" ++ dev ++ "\nBOOTPROTO=static\nIPADDR=" ++ ip ++ "\nNETMASK=" ++
        mask ++ "\nBROADCAST=" ++ bc ++ "\nGATEWAY=" ++ gw ++ "\nONBOOT=yes" =
      concatStrings (["DEVICE=" ++ dev, "BOOTPROTO=static", "IPADDR=" ++ ip, "NETMASK=" ++ mask,
        "BROADCAST=" ++ bc, "GATEWAY=" ++ gw].map (fun l => l ++ "\n")) ++ "ONBOOT=yes" := by
    apply String.ext
    simp [concatStrings]
  rw [e, linesOf_unterminated _ _ _ (by decide) (by decide)]
  · rfl
  · intro l hl
    simp only [List.mem_cons, List.mem_singleton, List.not_mem_nil, or_false] at hl
    rcases hl with rfl | rfl | rfl | rfl | rfl | rfl
    · simp only [String.data_append, List.mem_append, not_or]; exact ⟨by decide, h1⟩
    · decide
    · simp only [String.data_append, List.mem_append, not_or]; exact ⟨by decide, h2⟩
    · simp only [String.data_append, List.mem_append, not_or]; exact ⟨by decide, h3⟩
    · simp only [String.data_append, List.mem_append, not_or]; exact ⟨by decide, h4⟩
    · simp only [String.data_append, List.mem_append, not_or]; exact ⟨by decide, h5⟩

/-- C1, amended: every customNetwork that writeIfcfgs builds has
HasDefaultGateway = true, whether or not its network is tagged as the
default-route source, and the interface file written for it is the template
with the gateway line filled in; for values without a newline its lines are
DEVICE, BOOTPROTO, IPADDR, NETMASK, BROADCAST, exactly one line
GATEWAY=gateway value, and ONBOOT. -/
theorem gateway_line_always_written {σ : Type} (sys : Sys σ) (s : σ) (networks : Networks) :
    (∀ cn ∈ (writeIfcfgs sys s networks).val.1, cn.HasDefaultGateway = true) ∧
    writesOf (writeIfcfgs sys s networks).evs =
      (writeIfcfgs sys s networks).val.1.map (fun cn =>
        (filepathJoin ["/etc/sysconfig/network-scripts", "ifcfg-" ++ cn.Interface],
          "DEVICE=" ++ cn.Interface ++ "\nBOOTPROTO=static\nIPADDR=" ++ cn.Network.IP ++
            "\nNETMASK=" ++ cn.Network.Netmask ++ "\nBROADCAST=" ++ cn.Broadcast ++
            "\nGATEWAY=" ++ cn.Network.Gateway ++ "\nONBOOT=yes")) ∧
    (∀ cn ∈ (writeIfcfgs sys s networks).val.1,
      '\n' ∉ cn.Interface.data → '\n' ∉ cn.Network.IP.data → '\n' ∉ cn.Network.Netmask.data →
      '\n' ∉ cn.Broadcast.data → '\n' ∉ cn.Network.Gateway.data →
      linesOf ("DEVICE=" ++ cn.Interface ++ "\nBOOTPROTO=static\nIPADDR=" ++ cn.Network.IP ++
            "\nNETMASK=" ++ cn.Network.Netmask ++ "\nBROADCAST=" ++ cn.Broadcast ++
            "\nGATEWAY=" ++ cn.Network.Gateway ++ "\nONBOOT=yes") =
        ["DEVICE=" ++ cn.Interface, "BOOTPROTO=static", "IPADDR=" ++ cn.Network.IP,
         "NETMASK=" ++ cn.Network.Netmask, "BROADCAST=" ++ cn.Broadcast,
         "GATEWAY=" ++ cn.Network.Gateway, "ONBOOT=yes"]) := by
  have hflag : ∀ cn ∈ (writeIfcfgs sys s networks).val.1, cn.HasDefaultGateway = true := by
    obtain ⟨k, _, h1, _⟩ := writeIfcfgs_spec sys s networks
    intro cn hcn
    rw [h1] at hcn
    obtain ⟨n, _, rfl⟩ := List.mem_map.mp hcn
    exact (newNetFor_flag sys _ n).1
  refine ⟨hflag, ?_, ?_⟩
  · rw [writeIfcfgs_writes_eq]
    apply List.map_congr_left
    intro cn hcn
    simp only [ifcfgFile, ifcfgPath, ifcfgText_of_flag cn (hflag cn hcn)]
  · intro cn _ h1 h2 h3 h4 h5
    exact ifcfg_lines _ _ _ _ _ h1 h2 h3 h4 h5

/-- Witness of C1, amended: the file of the untagged netA has the seven lines,
the gateway line among them. -/
theorem gateway_line_always_written_witness :
    linesOf ("DEVICE=" ++ "eth0" ++ "\nBOOTPROTO=static\nIPADDR=" ++ "10.0.0.5" ++
          "\nNETMASK=" ++ "255.255.255.0" ++ "\nBROADCAST=" ++ "10.0.0.255" ++
          "\nGATEWAY=" ++ "10.0.0.1" ++ "\nONBOOT=yes") =
      ["DEVICE=" ++ "eth0", "BOOTPROTO=static", "IPADDR=" ++ "10.0.0.5",
       "NETMASK=" ++ "255.255.255.0", "BROADCAST=" ++ "10.0.0.255",
       "GATEWAY=" ++ "10.0.0.1", "ONBOOT=yes"] :=
  (gateway_line_always_written (memSys noFailure) memStart [netA]).2.2
    ⟨netA, "eth0", "10.0.0.0", "10.0.0.255", true⟩ (by decide) (by decide) (by decide) (by decide)
    (by decide) (by decide)

/-! ### C2: the restart of the static pass -/

/-- The commands of SetupManualNetworking, for every input and state: the
restart command once when writeIfcfgs returned nil, no command when it returned
an error; at most one command in every case. -/
theorem SetupManualNetworking_commands {σ : Type} (sys : Sys σ) (s : σ) (networks : Networks)
    (errCh : Bool) :
    ((writeIfcfgs sys s networks).val.2 = none →
      commandsOf (SetupManualNetworking sys s networks errCh).evs =
        [["service", "network", "restart"]]) ∧
    ((writeIfcfgs sys s networks).val.2 ≠ none →
      commandsOf (SetupManualNetworking sys s networks errCh).evs = []) ∧
    (commandsOf (SetupManualNetworking sys s networks errCh).evs).length ≤ 1 := by
  have h := (SetupManualNetworking_spec sys s networks errCh).2.2.2
  refine ⟨fun hn => ?_, fun hn => ?_, ?_⟩
  · rw [h, if_pos hn]
    rfl
  · rw [h, if_neg hn]
  · rw [h]
    split <;> simp [restartCommand]

set_option maxRecDepth 100000 in
/-- C2, the code at the failing input: on the state left by a first static
pass, a second SetupManualNetworking with the same network finds its interface
file holding the rendered content, leaves every file as it was, and still runs
service network restart, where the claim has no restart. SetupDhcp, in the same
file, does what the claim says: its first call restarts and its second call on
the state it left runs no command. -/
theorem static_pass_restarts_without_change :
    (∀ pc ∈ writesOf (writeIfcfgs (memSys noFailure)
          (SetupManualNetworking (memSys noFailure) memStart [netA] false).st [netA]).evs,
        (SetupManualNetworking (memSys noFailure) memStart [netA] false).st.files.lookup pc.1 =
          some pc.2) ∧
    (SetupManualNetworking (memSys noFailure)
        (SetupManualNetworking (memSys noFailure) memStart [netA] false).st [netA] false).st.files =
      (SetupManualNetworking (memSys noFailure) memStart [netA] false).st.files ∧
    (SetupManualNetworking (memSys noFailure)
        (SetupManualNetworking (memSys noFailure) memStart [netA] false).st [netA] false).val.err =
      none ∧
    commandsOf (SetupManualNetworking (memSys noFailure)
        (SetupManualNetworking (memSys noFailure) memStart [netA] false).st [netA] false).evs =
      [["service", "network", "restart"]] ∧
    commandsOf (SetupDhcp (memSys noFailure) memStart [netA]).evs =
      [["service", "network", "restart"]] ∧
    commandsOf (SetupDhcp (memSys noFailure)
        (SetupDhcp (memSys noFailure) memStart [netA]).st [netA]).evs = [] := by
  decide

/-! ### C10: fatal errors abort the static pass -/

/-- C10: in every run of SetupManualNetworking, a call that fails fatally (the
glob, an address read, the subnet computation, the write of an interface file
or of resolv.conf) is the last call of the pass, the pass returns an error and
the goroutine gratuitiousArp is not started. When the glob fails, an address
read fails, the subnet computation of some network fails or a write of
writeIfcfgs fails, writeIfcfgs returns an error; then the pass returns an error,
starts no goroutine, and its trace is that of writeIfcfgs alone, without any
command: neither the restart nor the write of resolv.conf is run. When only the
write of resolv.conf fails the pass returns an error and starts no goroutine. -/
theorem fatal_error_aborts_pass {σ : Type} (sys : Sys σ) (s : σ) (networks : Networks)
    (errCh : Bool) :
    (∀ pre e post, (SetupManualNetworking sys s networks errCh).evs = pre ++ e :: post →
      e.fatal = true →
      post = [] ∧ (SetupManualNetworking sys s networks errCh).val.err ≠ none ∧
        (SetupManualNetworking sys s networks errCh).val.launched = none) ∧
    (((∃ err, sys.Glob s "/sys/class/net/*" = Except.error err) ∨
      (∃ filePaths, sys.Glob s "/sys/class/net/*" = Except.ok filePaths ∧
        ∃ p ∈ filePaths, ∃ err,
          sys.ReadFileString s (filepathJoin [p, "address"]) = Except.error err) ∨
      (∃ n ∈ networks, ∃ err,
        sys.CalculateNetworkAndBroadcast n.IP n.Netmask = Except.error err) ∨
      (∃ e ∈ (writeIfcfgs sys s networks).evs, e.fatal = true)) →
      (writeIfcfgs sys s networks).val.2 ≠ none) ∧
    ((writeIfcfgs sys s networks).val.2 ≠ none →
      (SetupManualNetworking sys s networks errCh).val.err ≠ none ∧
      (SetupManualNetworking sys s networks errCh).val.launched = none ∧
      (SetupManualNetworking sys s networks errCh).evs = (writeIfcfgs sys s networks).evs ∧
      commandsOf (SetupManualNetworking sys s networks errCh).evs = []) ∧
    ((writeIfcfgs sys s networks).val.2 = none →
      (writeResolvConf sys (restartNetwork sys (writeIfcfgs sys s networks).st).st networks).val ≠ none →
      (SetupManualNetworking sys s networks errCh).val.err ≠ none ∧
      (SetupManualNetworking sys s networks errCh).val.launched = none) := by
  obtain ⟨ho, hl, _, hc⟩ := SetupManualNetworking_spec sys s networks errCh
  refine ⟨?_, ?_, ?_, ?_⟩
  · intro pre e post hs he
    have hnot : ¬ NoFatal (SetupManualNetworking sys s networks errCh).evs := by
      intro hn
      have := hn e (by rw [hs]; simp)
      rw [he] at this
      cases this
    have herr : (SetupManualNetworking sys s networks errCh).val.err ≠ none := by
      intro hnone
      exact hnot (Outcome_noFatal_of_none ho hnone)
    exact ⟨FatalLast_split (Outcome_fatalLast_of_some ho herr) hs he, herr, hl herr⟩
  · intro hfail hnone
    obtain ⟨hd, hcalc⟩ := writeIfcfgs_ok sys s networks hnone
    obtain ⟨filePaths, hg, hr⟩ := detectMacAddresses_ok sys s hd
    rcases hfail with ⟨err, h⟩ | ⟨paths, h1, p, hp, err, h2⟩ | ⟨n, hn, err, h⟩ | ⟨e, he, hf⟩
    · rw [hg] at h
      cases h
    · rw [hg] at h1
      cases h1
      obtain ⟨c, hc⟩ := hr p hp
      rw [hc] at h2
      cases h2
    · obtain ⟨q, hq⟩ := hcalc n hn
      rw [hq] at h
      cases h
    · obtain ⟨_, _, _, _, _, _, hout⟩ := writeIfcfgs_spec sys s networks
      have := Outcome_noFatal_of_none hout hnone e he
      rw [hf] at this
      cases this
  · intro hw
    cases hv : (writeIfcfgs sys s networks).val.2 with
    | none => exact absurd hv hw
    | some err =>
      rw [SetupManualNetworking_of_write_error sys s networks errCh err hv] at hc ⊢
      exact ⟨by simp, rfl, rfl, by simpa [hv] using hc⟩
  · intro hw hr
    obtain ⟨_, e2, e3⟩ := SetupManualNetworking_of_write_ok sys s networks errCh hw
    rw [e2, e3]
    cases hv : (writeResolvConf sys (restartNetwork sys (writeIfcfgs sys s networks).st).st
      networks).val with
    | none => exact absurd hv hr
    | some e => simp

/-- Witness of C10: with netA written and the subnet computation of the second
network failing, the failed computation is the last call, the pass returns an
error and starts no goroutine. -/
theorem fatal_error_aborts_pass_witness :
    ([] : List Event) = [] ∧
      (SetupManualNetworking (memSys noFailure) memStart
        [netA, netBad, netB] false).val.err ≠ none ∧
      (SetupManualNetworking (memSys noFailure) memStart
        [netA, netBad, netB] false).val.launched = none :=
  (fatal_error_aborts_pass (memSys noFailure) memStart
      [netA, netBad, netB] false).1
    [⟨Call.Glob "/sys/class/net/*", none⟩,
     ⟨Call.ReadFileString "/sys/class/net/eth0/address", none⟩,
     ⟨Call.ReadFileString "/sys/class/net/eth1/address", none⟩,
     ⟨Call.CalculateNetworkAndBroadcast "10.0.0.5" "255.255.255.0", none⟩,
     ⟨Call.WriteFile "/etc/sysconfig/network-scripts/ifcfg-eth0"
        "DEVICE=eth0\nBOOTPROTO=static\nIPADDR=10.0.0.5\nNETMASK=255.255.255.0\nBROADCAST=10.0.0.255\nGATEWAY=10.0.0.1\nONBOOT=yes",
        none⟩]
    ⟨Call.CalculateNetworkAndBroadcast "bad" "255.255.255.0", some (GoError.mk "invalid IP address")⟩
    [] (by decide) (by decide)

/-! ### C7: a hardware address without a device -/

/-- C7 fails as stated: no device of memStart has the hardware address of
netC, yet the pass succeeds, builds a customNetwork with an empty device name
and writes the file ifcfg- for it. -/
theorem missing_device_counterexample :
    (detectMacAddresses (memSys noFailure) memStart).1.1 netC.Mac = none ∧
    (SetupManualNetworking (memSys noFailure) memStart [netC] false).val =
      ⟨none, some ([⟨netC, "", "10.0.2.0", "10.0.2.255", true⟩], false)⟩ ∧
    writesOf (writeIfcfgs (memSys noFailure) memStart [netC]).evs =
      [("/etc/sysconfig/network-scripts/ifcfg-",
        "DEVICE=\nBOOTPROTO=static\nIPADDR=10.0.2.5\nNETMASK=255.255.255.0\nBROADCAST=10.0.2.255\nGATEWAY=10.0.2.1\nONBOOT=yes")] := by
  decide

/-- C7, amended: writeIfcfgs returns an error exactly when one of its calls
(glob, address read, subnet computation, file write) fails, never because a
hardware address is absent from the map of detectMacAddresses; when it returns
nil, each network whose hardware address is absent from that map has a
customNetwork with the empty device name among those returned, and its
interface file is written to /etc/sysconfig/network-scripts/ifcfg-. -/
theorem missing_device_is_not_an_error {σ : Type} (sys : Sys σ) (s : σ) (networks : Networks) :
    ((writeIfcfgs sys s networks).val.2 = none ↔
      ∀ e ∈ (writeIfcfgs sys s networks).evs, e.fatal = false) ∧
    ((writeIfcfgs sys s networks).val.2 = none →
      ∀ n ∈ networks, (detectMacAddresses sys s).1.1 n.Mac = none →
        ∃ cn ∈ (writeIfcfgs sys s networks).val.1,
          cn.Network = n ∧ cn.Interface = "" ∧
          ("/etc/sysconfig/network-scripts/ifcfg-", ifcfgText cn) ∈
            writesOf (writeIfcfgs sys s networks).evs) := by
  obtain ⟨k, _, h1, h2, h3, _, ho⟩ := writeIfcfgs_spec sys s networks
  refine ⟨⟨fun hn => Outcome_noFatal_of_none ho hn, fun hclean => ?_⟩, ?_⟩
  · by_contra hne
    exact FatalLast_not_NoFatal (Outcome_fatalLast_of_some ho hne) hclean
  · intro hn n hmem hmac
    obtain ⟨hk, _⟩ := h3 hn
    subst hk
    rw [List.take_length] at h1 h2
    obtain ⟨_, f2, f3⟩ := newNetFor_flag sys (detectMacAddresses sys s).1.1 n
    have hi : (newNetFor sys (detectMacAddresses sys s).1.1 n).Interface = "" := by
      rw [f3]
      simp [GoMap.index, hmac]
    refine ⟨newNetFor sys (detectMacAddresses sys s).1.1 n, ?_, f2, hi, ?_⟩
    · rw [h1]
      exact List.mem_map.mpr ⟨n, hmem, rfl⟩
    · rw [h2]
      refine List.mem_map.mpr ⟨n, hmem, ?_⟩
      simp only [ifcfgFile, ifcfgPath, hi]
      rfl

/-- Witness of C7, amended: netC on memStart. -/
theorem missing_device_is_not_an_error_witness :
    ∃ cn ∈ (writeIfcfgs (memSys noFailure) memStart [netC]).val.1,
      cn.Network = netC ∧ cn.Interface = "" ∧
      ("/etc/sysconfig/network-scripts/ifcfg-", ifcfgText cn) ∈
        writesOf (writeIfcfgs (memSys noFailure) memStart [netC]).evs :=
  (missing_device_is_not_an_error (memSys noFailure) memStart [netC]).2 (by decide) netC
    (by decide) (by decide)

/-! ### C9: one interface file per network -/

/-- C9 fails as stated: netA and netA2 carry the same hardware address, the
pass succeeds, and both interface files go to the same path. -/
theorem same_device_counterexample :
    (SetupManualNetworking (memSys noFailure) memStart [netA, netA2] false).val.err = none ∧
    (writesOf (writeIfcfgs (memSys noFailure) memStart [netA, netA2]).evs).map Prod.fst =
      ["/etc/sysconfig/network-scripts/ifcfg-eth0", "/etc/sysconfig/network-scripts/ifcfg-eth0"] ∧
    ¬ ((writesOf (writeIfcfgs (memSys noFailure) memStart [netA, netA2]).evs).map Prod.fst).Nodup := by
  decide

theorem append_left_cancel_string (p a b : String) (h : p ++ a = p ++ b) : a = b := by
  have := congrArg String.data h
  simp only [String.data_append, List.append_cancel_left_eq] at this
  exact String.ext this

/-- C9, amended: when SetupManualNetworking succeeds on N networks, writeIfcfgs
issues exactly N interface-file writes, one per network in order, the file of a
network being ifcfg- followed by the device name resolved from its hardware
address, joined to /etc/sysconfig/network-scripts; the pass then writes
resolv.conf and nothing else; for every reordering of the networks on which the
pass also succeeds from the same state, the (path, content) pairs are the same
up to order; and the N paths are /etc/sysconfig/network-scripts/ifcfg-device
and pairwise distinct provided the resolved device names contain no slash and
are pairwise distinct. -/
theorem one_interface_file_per_network {σ : Type} (sys : Sys σ) (s : σ) (networks : Networks)
    (errCh : Bool) (hok : (SetupManualNetworking sys s networks errCh).val.err = none) :
    writesOf (writeIfcfgs sys s networks).evs =
      networks.map (fun n =>
        (filepathJoin ["/etc/sysconfig/network-scripts",
            "ifcfg-" ++ (detectMacAddresses sys s).1.1.index n.Mac],
          ifcfgText (newNetFor sys (detectMacAddresses sys s).1.1 n))) ∧
    (writesOf (writeIfcfgs sys s networks).evs).length = networks.length ∧
    writesOf (SetupManualNetworking sys s networks errCh).evs =
      writesOf (writeIfcfgs sys s networks).evs ++
        [("/etc/resolv.conf", "# Generated by bosh-agent\n" ++
          concatStrings ((getDNSServers networks).map (fun x => "nameserver " ++ x ++ "\n")))] ∧
    (∀ networks2 : Networks, networks2.Perm networks →
      (SetupManualNetworking sys s networks2 errCh).val.err = none →
      (writesOf (writeIfcfgs sys s networks2).evs).Perm (writesOf (writeIfcfgs sys s networks).evs)) ∧
    ((∀ n ∈ networks, '/' ∉ ((detectMacAddresses sys s).1.1.index n.Mac).data) →
      (networks.map (fun n => (detectMacAddresses sys s).1.1.index n.Mac)).Nodup →
      (writesOf (writeIfcfgs sys s networks).evs).map Prod.fst =
        networks.map (fun n =>
          "/etc/sysconfig/network-scripts/ifcfg-" ++ (detectMacAddresses sys s).1.1.index n.Mac) ∧
      ((writesOf (writeIfcfgs sys s networks).evs).map Prod.fst).Nodup) := by
  have key : ∀ nets : Networks, (SetupManualNetworking sys s nets errCh).val.err = none →
      writesOf (writeIfcfgs sys s nets).evs =
        nets.map (fun n =>
          (filepathJoin ["/etc/sysconfig/network-scripts",
              "ifcfg-" ++ (detectMacAddresses sys s).1.1.index n.Mac],
            ifcfgText (newNetFor sys (detectMacAddresses sys s).1.1 n))) := by
    intro nets h
    have hw := ((SetupManualNetworking_spec sys s nets errCh).2.2.1 h).2
    obtain ⟨k, _, _, h2, h3, _⟩ := writeIfcfgs_spec sys s nets
    obtain ⟨hk, _⟩ := h3 hw
    subst hk
    rw [List.take_length] at h2
    rw [h2]
    apply List.map_congr_left
    intro n _
    simp only [ifcfgFile, ifcfgPath, (newNetFor_flag sys (detectMacAddresses sys s).1.1 n).2.2]
  have hw := ((SetupManualNetworking_spec sys s networks errCh).2.2.1 hok).2
  refine ⟨key networks hok, by rw [key networks hok]; simp, ?_, ?_, ?_⟩
  · obtain ⟨e1, _, _⟩ := SetupManualNetworking_of_write_ok sys s networks errCh hw
    rw [e1, writesOf_append, writesOf_append, (restartNetwork_commands sys _).2.1,
      writeResolvConf_writes, List.append_nil]
    rfl
  · intro networks2 hperm hok2
    rw [key networks hok, key networks2 hok2]
    exact hperm.map _
  · intro hslash hnodup
    have hpaths : (writesOf (writeIfcfgs sys s networks).evs).map Prod.fst =
        networks.map (fun n =>
          "/etc/sysconfig/network-scripts/ifcfg-" ++ (detectMacAddresses sys s).1.1.index n.Mac) := by
      rw [key networks hok, List.map_map]
      apply List.map_congr_left
      intro n hn
      simp only [Function.comp_apply]
      exact filepathJoin_ifcfg _ (hslash n hn)
    refine ⟨hpaths, ?_⟩
    rw [hpaths]
    have : networks.map (fun n =>
          "/etc/sysconfig/network-scripts/ifcfg-" ++ (detectMacAddresses sys s).1.1.index n.Mac) =
        (networks.map (fun n => (detectMacAddresses sys s).1.1.index n.Mac)).map
          (fun d => "/etc/sysconfig/network-scripts/ifcfg-" ++ d) := by
      rw [List.map_map]
      rfl
    rw [this]
    exact hnodup.map (fun a b h => append_left_cancel_string _ a b h)

/-- Witness of C9, amended: netA and netB on memStart give the files of eth0
and eth1. -/
theorem one_interface_file_per_network_witness :
    (writesOf (writeIfcfgs (memSys noFailure) memStart [netA, netB]).evs).map Prod.fst =
        [netA, netB].map (fun n =>
          "/etc/sysconfig/network-scripts/ifcfg-" ++
            (detectMacAddresses (memSys noFailure) memStart).1.1.index n.Mac) ∧
      ((writesOf (writeIfcfgs (memSys noFailure) memStart [netA, netB]).evs).map Prod.fst).Nodup :=
  (one_interface_file_per_network (memSys noFailure) memStart [netA, netB] false (by decide)).2.2.2.2
    (by decide) (by decide)

/-! ### C3: SetupDhcp -/

theorem MemState.lookup_put (s : MemState) (path content : String) :
    (s.put path content).files.lookup path = some content := by
  simp [MemState.put, List.lookup]

/-- SetupDhcp by cases on what the convergence write returns. -/
theorem SetupDhcp_cases {σ : Type} (sys : Sys σ) (s : σ) (networks : Networks) (content : String)
    (hc : content = dhcpHeader ++
      concatStrings ((DefaultNetworkFor networks "dns").1.DNS.map dhcpDirective)) :
    (∀ e, (sys.ConvergeFileContents s "/etc/dhcp/dhclient.conf" content).1.2 = some e →
      (SetupDhcp sys s networks).val = some (WrapError e "Writing to /etc/dhcp/dhclient.conf") ∧
      commandsOf (SetupDhcp sys s networks).evs = [] ∧
      (SetupDhcp sys s networks).st =
        (sys.ConvergeFileContents s "/etc/dhcp/dhclient.conf" content).2) ∧
    ((sys.ConvergeFileContents s "/etc/dhcp/dhclient.conf" content).1.2 = none →
      (SetupDhcp sys s networks).val = none ∧
      ((sys.ConvergeFileContents s "/etc/dhcp/dhclient.conf" content).1.1 = true →
        commandsOf (SetupDhcp sys s networks).evs = [restartCommand] ∧
        (SetupDhcp sys s networks).st =
          (sys.RunCommand (sys.ConvergeFileContents s "/etc/dhcp/dhclient.conf" content).2
            "service" ["network", "restart"]).2) ∧
      ((sys.ConvergeFileContents s "/etc/dhcp/dhclient.conf" content).1.1 = false →
        commandsOf (SetupDhcp sys s networks).evs = [] ∧
        (SetupDhcp sys s networks).st =
          (sys.ConvergeFileContents s "/etc/dhcp/dhclient.conf" content).2)) := by
  subst hc
  unfold SetupDhcp
  simp only [execute_centosDHCPConfigTemplate]
  rcases sys.ConvergeFileContents s "/etc/dhcp/dhclient.conf"
    (dhcpHeader ++ concatStrings ((DefaultNetworkFor networks "dns").1.DNS.map dhcpDirective))
    with ⟨⟨written, _ | err⟩, s1⟩
  · cases written with
    | false => simp [commandsOf]
    | true =>
      simp only [if_true]
      unfold restartNetwork
      rcases sys.RunCommand s1 "service" ["network", "restart"] with ⟨_ | e, s2⟩ <;>
        simp [commandsOf, restartCommand]
  · simp [commandsOf]

theorem SetupDhcp_mem_first (cmdFails : List String → Bool) (m : MemState) (networks : Networks) :
    (SetupDhcp (memSys cmdFails) m networks).val = none ∧
      (commandsOf (SetupDhcp (memSys cmdFails) m networks).evs).length ≤ 1 ∧
      (SetupDhcp (memSys cmdFails) m networks).st.files.lookup "/etc/dhcp/dhclient.conf" =
        some (dhcpText networks) := by
  obtain ⟨_, h2⟩ := SetupDhcp_cases (memSys cmdFails) m networks (dhcpText networks) rfl
  by_cases hl : m.files.lookup "/etc/dhcp/dhclient.conf" = some (dhcpText networks)
  · have hc : (memSys cmdFails).ConvergeFileContents m "/etc/dhcp/dhclient.conf" (dhcpText networks) =
        ((false, none), m) := by
      simp [memSys, memConverge, hl]
    rw [hc] at h2
    obtain ⟨h3, _, h5⟩ := h2 rfl
    obtain ⟨h6, h7⟩ := h5 rfl
    exact ⟨h3, by simp [h6], by rw [h7]; exact hl⟩
  · have hc : (memSys cmdFails).ConvergeFileContents m "/etc/dhcp/dhclient.conf" (dhcpText networks) =
        ((true, none), m.put "/etc/dhcp/dhclient.conf" (dhcpText networks)) := by
      simp [memSys, memConverge, hl]
    rw [hc] at h2
    obtain ⟨h3, h4, _⟩ := h2 rfl
    obtain ⟨h6, h7⟩ := h4 rfl
    refine ⟨h3, by simp [h6, restartCommand], ?_⟩
    rw [h7]
    exact MemState.lookup_put m _ _

theorem SetupDhcp_mem_converged (cmdFails : List String → Bool) (m : MemState) (networks : Networks)
    (hl : m.files.lookup "/etc/dhcp/dhclient.conf" = some (dhcpText networks)) :
    (SetupDhcp (memSys cmdFails) m networks).val = none ∧
      commandsOf (SetupDhcp (memSys cmdFails) m networks).evs = [] := by
  obtain ⟨_, h2⟩ := SetupDhcp_cases (memSys cmdFails) m networks (dhcpText networks) rfl
  have hc : (memSys cmdFails).ConvergeFileContents m "/etc/dhcp/dhclient.conf" (dhcpText networks) =
      ((false, none), m) := by
    simp [memSys, memConverge, hl]
  rw [hc] at h2
  obtain ⟨h3, _, h5⟩ := h2 rfl
  exact ⟨h3, (h5 rfl).1⟩

/-- C3: in SetupDhcp, when converging /etc/dhcp/dhclient.conf fails the call
returns an error and runs no command; otherwise it returns nil and runs the
restart command exactly once when the convergence write reported a change and
no command when it reported none, whatever the restart command returns. With
the convergence write of the spec (the in-memory machine), from any state and
for any outcome of the commands, the second of two consecutive calls with the
same networks runs no restart, so the two run it at most once. -/
theorem SetupDhcp_restart_iff_written {σ : Type} (sys : Sys σ) (s : σ) (networks : Networks) :
    (∀ e, (sys.ConvergeFileContents s "/etc/dhcp/dhclient.conf" (dhcpText networks)).1.2 = some e →
      (SetupDhcp sys s networks).val = some (WrapError e "Writing to /etc/dhcp/dhclient.conf") ∧
      commandsOf (SetupDhcp sys s networks).evs = []) ∧
    ((sys.ConvergeFileContents s "/etc/dhcp/dhclient.conf" (dhcpText networks)).1.2 = none →
      (SetupDhcp sys s networks).val = none ∧
      ((sys.ConvergeFileContents s "/etc/dhcp/dhclient.conf" (dhcpText networks)).1.1 = true →
        commandsOf (SetupDhcp sys s networks).evs = [["service", "network", "restart"]]) ∧
      ((sys.ConvergeFileContents s "/etc/dhcp/dhclient.conf" (dhcpText networks)).1.1 = false →
        commandsOf (SetupDhcp sys s networks).evs = [])) ∧
    (∀ (cmdFails : List String → Bool) (m : MemState),
      (SetupDhcp (memSys cmdFails) m networks).val = none ∧
      (SetupDhcp (memSys cmdFails) (SetupDhcp (memSys cmdFails) m networks).st networks).val = none ∧
      commandsOf
        (SetupDhcp (memSys cmdFails) (SetupDhcp (memSys cmdFails) m networks).st networks).evs = [] ∧
      (commandsOf (SetupDhcp (memSys cmdFails) m networks).evs ++
        commandsOf
          (SetupDhcp (memSys cmdFails) (SetupDhcp (memSys cmdFails) m networks).st networks).evs).length
        ≤ 1) := by
  obtain ⟨h1, h2⟩ := SetupDhcp_cases sys s networks (dhcpText networks) rfl
  refine ⟨fun e he => ⟨(h1 e he).1, (h1 e he).2.1⟩, fun hn => ?_, ?_⟩
  · obtain ⟨a, b, c⟩ := h2 hn
    exact ⟨a, fun hw => (b hw).1, fun hw => (c hw).1⟩
  · intro cmdFails m
    obtain ⟨f1, f2, f3⟩ := SetupDhcp_mem_first cmdFails m networks
    obtain ⟨g1, g2⟩ := SetupDhcp_mem_converged cmdFails _ networks f3
    refine ⟨f1, g1, g2, ?_⟩
    rw [g2, List.append_nil]
    exact f2

/-- Witness of C3: on the in-memory machine without a dhclient.conf the
convergence write reports a change without error, and SetupDhcp returns nil
after one restart, also when the restart command fails. -/
theorem SetupDhcp_restart_iff_written_witness :
    (SetupDhcp (memSys allFail) memStart [netB]).val = none ∧
      commandsOf (SetupDhcp (memSys allFail) memStart [netB]).evs =
        [["service", "network", "restart"]] :=
  ⟨((SetupDhcp_restart_iff_written (memSys allFail) memStart [netB]).2.1 (by decide)).1,
   ((SetupDhcp_restart_iff_written (memSys allFail) memStart [netB]).2.1 (by decide)).2.1
     (by decide)⟩

/-! ### C6: the announcements of gratuitiousArp -/

theorem waitForDevice_present {σ : Type} (sys : Sys σ) (path : String) (fuel : Nat) (s : σ)
    (h : sys.FileExists s path = true) : waitForDevice sys path fuel s = some s := by
  cases fuel <;> simp [waitForDevice, h]

theorem commandsOf_arpingEvents (network : customNetwork) (err : Option GoError) :
    commandsOf (arpingEvents network err) = [arpingCommand network] := by
  cases err <;> rfl

theorem arpNetworks_spec {σ : Type} (sys : Sys σ) (fuel : Nat) (Inv : σ → Prop)
    (hcmd : ∀ s cmd args, Inv s → Inv (sys.RunCommand s cmd args).2)
    (hsleep : ∀ s d, Inv s → Inv (sys.Sleep s d))
    (networks : List customNetwork)
    (hpresent : ∀ s, Inv s → ∀ n ∈ networks,
      sys.FileExists s (filepathJoin ["/sys/class/net", n.Interface]) = true)
    (s : σ) (h0 : Inv s) :
    ∃ r, arpNetworks sys fuel networks s = some r ∧ Inv r.st ∧
      commandsOf r.evs = networks.map arpingCommand := by
  induction networks generalizing s with
  | nil => exact ⟨⟨(), s, []⟩, rfl, h0, rfl⟩
  | cons n rest ih =>
    have hp := hpresent s h0 n (by simp)
    have hrest : ∀ s, Inv s → ∀ x ∈ rest,
        sys.FileExists s (filepathJoin ["/sys/class/net", x.Interface]) = true :=
      fun s hs x hx => hpresent s hs x (by simp [hx])
    have h1 : Inv (sys.RunCommand s "arping" ["-c", "1", "-U", "-I", n.Interface, n.Network.IP]).2 :=
      hcmd s _ _ h0
    obtain ⟨r, hr, hinv, hcmds⟩ := ih hrest _ (hsleep _ sys.arpWaitInterval h1)
    refine ⟨⟨(), r.st, arpingEvents n
      (sys.RunCommand s "arping" ["-c", "1", "-U", "-I", n.Interface, n.Network.IP]).1 ++ r.evs⟩,
      ?_, hinv, ?_⟩
    · rw [arpNetworks, waitForDevice_present sys _ fuel s hp]
      simp only [hr]
    · simp [commandsOf_append, commandsOf_arpingEvents, hcmds]

theorem arpRounds_spec {σ : Type} (sys : Sys σ) (fuel : Nat) (Inv : σ → Prop)
    (hcmd : ∀ s cmd args, Inv s → Inv (sys.RunCommand s cmd args).2)
    (hsleep : ∀ s d, Inv s → Inv (sys.Sleep s d))
    (networks : List customNetwork)
    (hpresent : ∀ s, Inv s → ∀ n ∈ networks,
      sys.FileExists s (filepathJoin ["/sys/class/net", n.Interface]) = true)
    (rounds : Nat) (s : σ) (h0 : Inv s) :
    ∃ r, arpRounds sys fuel networks rounds s = some r ∧ Inv r.st ∧
      commandsOf r.evs = (List.replicate rounds (networks.map arpingCommand)).flatten := by
  induction rounds generalizing s with
  | zero => exact ⟨⟨(), s, []⟩, rfl, h0, rfl⟩
  | succ k ih =>
    obtain ⟨r1, hr1, hinv1, hc1⟩ := arpNetworks_spec sys fuel Inv hcmd hsleep networks hpresent s h0
    obtain ⟨r2, hr2, hinv2, hc2⟩ := ih r1.st hinv1
    refine ⟨⟨(), r2.st, r1.evs ++ r2.evs⟩, ?_, hinv2, ?_⟩
    · rw [arpRounds]
      simp only [hr1, hr2]
    · simp [commandsOf_append, hc1, hc2, List.replicate_succ]

/-- C6: when the device node of every network is present (in every state the
machine goes through, whatever the commands return and while time passes),
gratuitiousArp returns, for every bound on the device wait, and the commands it
runs are the list of arping -c 1 -U -I interface ip over the networks in the
supplied order, repeated 6 times: 6 × n commands, whether the individual
commands succeed or fail. -/
theorem gratuitiousArp_six_rounds {σ : Type} (sys : Sys σ) (fuel : Nat) (Inv : σ → Prop)
    (networks : List customNetwork) (errCh : Bool) (s : σ) (h0 : Inv s)
    (hcmd : ∀ s cmd args, Inv s → Inv (sys.RunCommand s cmd args).2)
    (hsleep : ∀ s d, Inv s → Inv (sys.Sleep s d))
    (hpresent : ∀ s, Inv s → ∀ n ∈ networks,
      sys.FileExists s (filepathJoin ["/sys/class/net", n.Interface]) = true) :
    ∃ r, gratuitiousArp sys fuel networks errCh s = some r ∧
      commandsOf r.evs =
        (List.replicate 6 (networks.map (fun n =>
          ["arping", "-c", "1", "-U", "-I", n.Interface, n.Network.IP]))).flatten ∧
      (commandsOf r.evs).length = 6 * networks.length := by
  obtain ⟨r, hr, _, hc⟩ := arpRounds_spec sys fuel Inv hcmd hsleep networks hpresent 6 s h0
  have hc2 : commandsOf (if errCh then r.evs ++ [⟨Call.ErrChSend, none⟩] else r.evs) =
      (List.replicate 6 (networks.map arpingCommand)).flatten := by
    cases errCh
    · simpa using hc
    · simp [commandsOf_append, hc, commandsOf]
  refine ⟨⟨(), r.st, if errCh then r.evs ++ [⟨Call.ErrChSend, none⟩] else r.evs⟩, ?_, hc2, ?_⟩
  · unfold gratuitiousArp
    simp only [hr]
  · rw [hc2]
    simp [List.replicate_succ]
    omega

/-- Witness of C6: two networks whose device nodes exist give twelve
announcements on the in-memory machine, although every command fails. -/
theorem gratuitiousArp_six_rounds_witness :
    ∃ r, gratuitiousArp (memSys allFail) 0 [customA, customB] true memStart = some r ∧
      commandsOf r.evs =
        (List.replicate 6 ([customA, customB].map (fun n =>
          ["arping", "-c", "1", "-U", "-I", n.Interface, n.Network.IP]))).flatten ∧
      (commandsOf r.evs).length = 6 * [customA, customB].length :=
  gratuitiousArp_six_rounds (memSys allFail) 0 (fun s => s.files = memStart.files)
    [customA, customB] true memStart rfl
    (fun _ _ _ h => h) (fun _ _ h => h)
    (fun s hs n hn => by
      have hf : ∀ path, (memSys allFail).FileExists s path = (memStart.files.lookup path).isSome := by
        intro path
        simp only [memSys, hs]
      rw [hf]
      simp only [List.mem_cons, List.mem_singleton, List.not_mem_nil, or_false] at hn
      rcases hn with rfl | rfl <;> decide)

/-! ### C8: detectMacAddresses does not depend on the order of enumeration -/

theorem detectMacAddressesLoop_lookup {σ : Type} (sys : Sys σ) (s : σ) (filePaths : List String)
    (hread : ∀ p ∈ filePaths, ∃ c, sys.ReadFileString s (filepathJoin [p, "address"]) = Except.ok c)
    (hnodup : (filePaths.map (macAddressOf sys s)).Nodup) (addresses : GoMap) :
    (detectMacAddressesLoop sys s filePaths addresses).1.2 = none ∧
    ∀ k v, (detectMacAddressesLoop sys s filePaths addresses).1.1 k = some v ↔
      ((∃ p ∈ filePaths, macAddressOf sys s p = k ∧ filepathBase p = v) ∨
        ((∀ p ∈ filePaths, macAddressOf sys s p ≠ k) ∧ addresses k = some v)) := by
  induction filePaths generalizing addresses with
  | nil => exact ⟨rfl, fun k v => by simp [detectMacAddressesLoop]⟩
  | cons p rest ih =>
    obtain ⟨c, hc⟩ := hread p (by simp)
    have hmac : macAddressOf sys s p = stringsTrim c "\n" := by simp [macAddressOf, hc]
    have hrest : ∀ q ∈ rest, ∃ c, sys.ReadFileString s (filepathJoin [q, "address"]) = Except.ok c :=
      fun q hq => hread q (by simp [hq])
    rw [List.map_cons, List.nodup_cons] at hnodup
    obtain ⟨hnot, hnd⟩ := hnodup
    obtain ⟨i1, i2⟩ := ih hrest hnd (addresses.set (stringsTrim c "\n") (filepathBase p))
    have hstep : (detectMacAddressesLoop sys s (p :: rest) addresses).1 =
        (detectMacAddressesLoop sys s rest
          (addresses.set (stringsTrim c "\n") (filepathBase p))).1 := by
      rw [detectMacAddressesLoop]
      simp only [hc]
    rw [hstep]
    refine ⟨i1, fun k v => ?_⟩
    rw [i2 k v]
    have hfresh : ∀ q ∈ rest, macAddressOf sys s q ≠ macAddressOf sys s p := by
      intro q hq e
      exact hnot (List.mem_map.mpr ⟨q, hq, e⟩)
    constructor
    · rintro (⟨q, hq, h1, h2⟩ | ⟨hall, hset⟩)
      · exact Or.inl ⟨q, by simp [hq], h1, h2⟩
      · by_cases hk : k = stringsTrim c "\n"
        · left
          refine ⟨p, by simp, by rw [hmac, hk], ?_⟩
          simpa [GoMap.set, hk] using hset
        · right
          refine ⟨?_, by simpa [GoMap.set, hk] using hset⟩
          intro q hq
          rcases List.mem_cons.mp hq with rfl | hq
          · rw [hmac]
            exact fun e => hk e.symm
          · exact hall q hq
    · rintro (⟨q, hq, h1, h2⟩ | ⟨hall, haddr⟩)
      · rcases List.mem_cons.mp hq with rfl | hq
        · right
          refine ⟨?_, ?_⟩
          · intro x hx e
            exact hfresh x hx (e.trans h1.symm)
          · rw [← h1, hmac, ← h2]
            simp [GoMap.set]
        · exact Or.inl ⟨q, hq, h1, h2⟩
      · right
        have hk : k ≠ stringsTrim c "\n" := by
          intro e
          exact hall p (by simp) (by rw [hmac, e])
        exact ⟨fun q hq => hall q (by simp [hq]), by simpa [GoMap.set, hk] using haddr⟩

/-- C8: when the hardware addresses of the enumerated devices are all readable
and pairwise distinct after trimming, detectMacAddresses succeeds and returns
the same map for every order in which the devices are enumerated, and the
hardware address of every device maps to the base name of its path. -/
theorem detectMacAddresses_order_independent {σ : Type} (sys : Sys σ) (s1 s2 : σ)
    (paths1 paths2 : List String)
    (hglob1 : sys.Glob s1 "/sys/class/net/*" = Except.ok paths1)
    (hglob2 : sys.Glob s2 "/sys/class/net/*" = Except.ok paths2)
    (hperm : paths1.Perm paths2)
    (hread : ∀ p ∈ paths1, ∃ c,
      sys.ReadFileString s1 (filepathJoin [p, "address"]) = Except.ok c ∧
      sys.ReadFileString s2 (filepathJoin [p, "address"]) = Except.ok c)
    (hdistinct : (paths1.map (macAddressOf sys s1)).Nodup) :
    (detectMacAddresses sys s1).1 = (detectMacAddresses sys s2).1 ∧
    (detectMacAddresses sys s1).1.2 = none ∧
    ∀ p ∈ paths1,
      (detectMacAddresses sys s1).1.1 (macAddressOf sys s1 p) = some (filepathBase p) ∧
      (detectMacAddresses sys s2).1.1 (macAddressOf sys s1 p) = some (filepathBase p) := by
  have hmac : ∀ p ∈ paths1, macAddressOf sys s2 p = macAddressOf sys s1 p := by
    intro p hp
    obtain ⟨c, h1, h2⟩ := hread p hp
    simp [macAddressOf, h1, h2]
  have hread1 : ∀ p ∈ paths1, ∃ c,
      sys.ReadFileString s1 (filepathJoin [p, "address"]) = Except.ok c :=
    fun p hp => (hread p hp).imp fun _ h => h.1
  have hread2 : ∀ p ∈ paths2, ∃ c,
      sys.ReadFileString s2 (filepathJoin [p, "address"]) = Except.ok c :=
    fun p hp => (hread p (hperm.mem_iff.mpr hp)).imp fun _ h => h.2
  have hdistinct2 : (paths2.map (macAddressOf sys s2)).Nodup := by
    have e : paths2.map (macAddressOf sys s2) = paths2.map (macAddressOf sys s1) :=
      List.map_congr_left fun p hp => hmac p (hperm.mem_iff.mpr hp)
    rw [e]
    exact (hperm.map _).nodup_iff.mp hdistinct
  obtain ⟨a1, a2⟩ := detectMacAddressesLoop_lookup sys s1 paths1 hread1 hdistinct GoMap.empty
  obtain ⟨b1, b2⟩ := detectMacAddressesLoop_lookup sys s2 paths2 hread2 hdistinct2 GoMap.empty
  have e1 : (detectMacAddresses sys s1).1 = (detectMacAddressesLoop sys s1 paths1 GoMap.empty).1 := by
    simp [detectMacAddresses, hglob1]
  have e2 : (detectMacAddresses sys s2).1 = (detectMacAddressesLoop sys s2 paths2 GoMap.empty).1 := by
    simp [detectMacAddresses, hglob2]
  have hsame : ∀ k v, (detectMacAddressesLoop sys s1 paths1 GoMap.empty).1.1 k = some v ↔
      (detectMacAddressesLoop sys s2 paths2 GoMap.empty).1.1 k = some v := by
    intro k v
    rw [a2, b2]
    constructor
    · rintro (⟨p, hp, h1, h2⟩ | ⟨hall, hnone⟩)
      · exact Or.inl ⟨p, hperm.mem_iff.mp hp, by rw [hmac p hp]; exact h1, h2⟩
      · simp [GoMap.empty] at hnone
    · rintro (⟨p, hp, h1, h2⟩ | ⟨hall, hnone⟩)
      · have hp1 := hperm.mem_iff.mpr hp
        exact Or.inl ⟨p, hp1, by rw [← hmac p hp1]; exact h1, h2⟩
      · simp [GoMap.empty] at hnone
  have hmap : (detectMacAddressesLoop sys s1 paths1 GoMap.empty).1.1 =
      (detectMacAddressesLoop sys s2 paths2 GoMap.empty).1.1 := by
    funext k
    apply Option.ext
    intro v
    simpa [Option.mem_def] using hsame k v
  refine ⟨?_, by rw [e1]; exact a1, ?_⟩
  · rw [e1, e2]
    exact Prod.ext hmap (by rw [a1, b1])
  · intro p hp
    have h1 : (detectMacAddressesLoop sys s1 paths1 GoMap.empty).1.1 (macAddressOf sys s1 p) =
        some (filepathBase p) := (a2 _ _).mpr (Or.inl ⟨p, hp, rfl, rfl⟩)
    rw [e1, e2]
    exact ⟨h1, by rw [← hmap]; exact h1⟩

/-- Witness of C8: eth0 and eth1 enumerated in either order resolve bb:bb to
eth1. -/
theorem detectMacAddresses_order_independent_witness :
    (detectMacAddresses (memSys noFailure) memStart).1 =
        (detectMacAddresses (memSys noFailure) memStartReversed).1 ∧
      (detectMacAddresses (memSys noFailure) memStart).1.2 = none ∧
      ∀ p ∈ ["/sys/class/net/eth0", "/sys/class/net/eth1"],
        (detectMacAddresses (memSys noFailure) memStart).1.1
            (macAddressOf (memSys noFailure) memStart p) = some (filepathBase p) ∧
        (detectMacAddresses (memSys noFailure) memStartReversed).1.1
            (macAddressOf (memSys noFailure) memStart p) = some (filepathBase p) :=
  detectMacAddresses_order_independent (memSys noFailure) memStart memStartReversed
    ["/sys/class/net/eth0", "/sys/class/net/eth1"] ["/sys/class/net/eth1", "/sys/class/net/eth0"]
    rfl rfl (List.Perm.swap _ _ _)
    (fun p hp => by
      simp only [List.mem_cons, List.mem_singleton, List.not_mem_nil, or_false] at hp
      rcases hp with rfl | rfl
      · exact ⟨"aa:aa\n", rfl, rfl⟩
      · exact ⟨"bb:bb\n", rfl, rfl⟩)
    (by decide)

end Bosh
